import Mathlib

/-!
# Verification of the veb browser-automation protocol and dispatcher

Shallow embedding of the repository's wire protocol (`src/protocol.ts`,
`src/types.ts`), command dispatcher (`handlers.ts`) and CLI command
construction (`index.ts`).

Modelling conventions:
* JSON values are modelled by `JVal`; JavaScript numbers are modelled as
  integers (all numeric fields of the protocol are used integrally).
* `JSON.parse` / `JSON.stringify` are platform builtins, not repository
  code: a parsed input is a `JVal`, an unparseable input is `none`, and
  `JSON.parse (JSON.stringify v) = v` on JSON values, so the string layer
  is the identity embedding on `JVal`.
* zod validation (`commandSchema.safeParse`) is translated check-by-check,
  with zod's default error messages and `path` values.
* The Playwright engine is an external capability (spec §6): its
  operations are modelled by an oracle (`Capability`) supplying a result
  or a thrown fault for each call, and executed calls are recorded in a
  trace of `Effect`s.
* `BrowserManager` (`browser.ts`) is not part of the given sources; its
  tab-management operations are modelled from the spec (see `bmCloseTab`
  etc. below).
-/

/-- A JSON value (result of `JSON.parse`). -/
inductive JVal where
  | null
  | bool (b : Bool)
  | num (n : Int)
  | str (s : String)
  | arr (elems : List JVal)
  | obj (fields : List (String × JVal))

/-- Property lookup on a JSON object (keys are unique in parsed JSON). -/
def lookupField : List (String × JVal) → String → Option JVal
  | [], _ => none
  | (key, v) :: rest, k => if key = k then some v else lookupField rest k

/-- JavaScript `typeof`-style name of a JSON value, as used in zod's
"Expected ..., received ..." messages. -/
def typeName : JVal → String
  | .null => "null"
  | .bool _ => "boolean"
  | .num _ => "number"
  | .str _ => "string"
  | .arr _ => "array"
  | .obj _ => "object"

mutual
/-- JavaScript `String(x)` conversion restricted to JSON values
(`protocol.ts` line 173: `String((json as { id: unknown }).id)`). -/
def jsToString : JVal → String
  | .null => "null"
  | .bool true => "true"
  | .bool false => "false"
  | .num n => toString n
  | .str s => s
  | .arr xs => jsArrString xs
  | .obj _ => "[object Object]"

/-- `Array.prototype.toString`: elements joined by `,`. -/
def jsArrString : List JVal → String
  | [] => ""
  | [x] => jsElemString x
  | x :: xs => jsElemString x ++ "," ++ jsArrString xs

/-- In `Array.prototype.join`, `null`/`undefined` elements become `""`. -/
def jsElemString : JVal → String
  | .null => ""
  | v => jsToString v
end

-- ---------------------------------------------------------------------
-- Enumerated field values (`z.enum(...)` in protocol.ts)
-- ---------------------------------------------------------------------

/-- `browser: z.enum(['chromium', 'firefox', 'webkit'])`. -/
inductive BrowserKind where
  | chromium | firefox | webkit
deriving DecidableEq

def BrowserKind.toStr : BrowserKind → String
  | .chromium => "chromium"
  | .firefox => "firefox"
  | .webkit => "webkit"

/-- `waitUntil: z.enum(['load', 'domcontentloaded', 'networkidle'])`. -/
inductive WaitUntil where
  | load | domcontentloaded | networkidle
deriving DecidableEq

def WaitUntil.toStr : WaitUntil → String
  | .load => "load"
  | .domcontentloaded => "domcontentloaded"
  | .networkidle => "networkidle"

/-- `button: z.enum(['left', 'right', 'middle'])`. -/
inductive MouseButton where
  | left | right | middle
deriving DecidableEq

def MouseButton.toStr : MouseButton → String
  | .left => "left"
  | .right => "right"
  | .middle => "middle"

/-- `format: z.enum(['png', 'jpeg'])`. -/
inductive ImgFormat where
  | png | jpeg
deriving DecidableEq

def ImgFormat.toStr : ImgFormat → String
  | .png => "png"
  | .jpeg => "jpeg"

/-- `state: z.enum(['attached', 'detached', 'visible', 'hidden'])`. -/
inductive WaitState where
  | attached | detached | visible | hidden
deriving DecidableEq

def WaitState.toStr : WaitState → String
  | .attached => "attached"
  | .detached => "detached"
  | .visible => "visible"
  | .hidden => "hidden"

/-- `direction: z.enum(['up', 'down', 'left', 'right'])`. -/
inductive ScrollDir where
  | up | down | left | right
deriving DecidableEq

def ScrollDir.toStr : ScrollDir → String
  | .up => "up"
  | .down => "down"
  | .left => "left"
  | .right => "right"

/-- `viewport: z.object({ width: z.number().positive(), height: z.number().positive() })`. -/
structure Viewport where
  width : Int
  height : Int
deriving DecidableEq

/-- `values: z.union([z.string(), z.array(z.string())])` (types.ts: `string | string[]`). -/
inductive SelectValues where
  | single (value : String)
  | many (values : List String)
deriving DecidableEq

-- ---------------------------------------------------------------------
-- The Command union (types.ts)
-- ---------------------------------------------------------------------

/-- The `Command` discriminated union of `types.ts`: one constructor per
action tag, carrying exactly the fields its interface declares. -/
inductive Command where
  | launch (id : String) (headless : Option Bool) (viewport : Option Viewport)
      (browser : Option BrowserKind)
  | navigate (id : String) (url : String) (waitUntil : Option WaitUntil)
  | click (id : String) (selector : String) (button : Option MouseButton)
      (clickCount : Option Int) (delay : Option Int)
  | type (id : String) (selector : String) (text : String) (delay : Option Int)
      (clear : Option Bool)
  | press (id : String) (key : String) (selector : Option String)
  | screenshot (id : String) (path : Option String) (fullPage : Option Bool)
      (selector : Option String) (format : Option ImgFormat) (quality : Option Int)
  | snapshot (id : String)
  | evaluate (id : String) (script : String) (args : Option (List JVal))
  | wait (id : String) (selector : Option String) (timeout : Option Int)
      (state : Option WaitState)
  | scroll (id : String) (selector : Option String) (x : Option Int) (y : Option Int)
      (direction : Option ScrollDir) (amount : Option Int)
  | select (id : String) (selector : String) (values : SelectValues)
  | hover (id : String) (selector : String)
  | content (id : String) (selector : Option String)
  | close (id : String)
  | tab_new (id : String)
  | tab_list (id : String)
  | tab_switch (id : String) (index : Int)
  | tab_close (id : String) (index : Option Int)
  | window_new (id : String) (viewport : Option Viewport)

/-- The `id` correlation token of a command (`command.id`). -/
def Command.id : Command → String
  | .launch i _ _ _ => i
  | .navigate i _ _ => i
  | .click i _ _ _ _ => i
  | .type i _ _ _ _ => i
  | .press i _ _ => i
  | .screenshot i _ _ _ _ _ => i
  | .snapshot i => i
  | .evaluate i _ _ => i
  | .wait i _ _ _ => i
  | .scroll i _ _ _ _ _ => i
  | .select i _ _ => i
  | .hover i _ => i
  | .content i _ => i
  | .close i => i
  | .tab_new i => i
  | .tab_list i => i
  | .tab_switch i _ => i
  | .tab_close i _ => i
  | .window_new i _ => i

-- ---------------------------------------------------------------------
-- zod-style validation (protocol.ts)
-- ---------------------------------------------------------------------

/-- One zod issue: field path and message (`e.path`, `e.message`). -/
structure Issue where
  path : List String
  message : String
deriving DecidableEq

abbrev Obj := List (String × JVal)

/-- The issues of a failed field validation (none on success). -/
def errs : Except (List Issue) α → List Issue
  | .error es => es
  | .ok _ => []

/-- `z.string()` on a required field. -/
def vReqStr (o : Obj) (k : String) : Except (List Issue) String :=
  match lookupField o k with
  | none => .error [⟨[k], "Required"⟩]
  | some (.str s) => .ok s
  | some v => .error [⟨[k], "Expected string, received " ++ typeName v⟩]

/-- `z.string().min(1)` on a required field. -/
def vReqStr1 (o : Obj) (k : String) : Except (List Issue) String :=
  match lookupField o k with
  | none => .error [⟨[k], "Required"⟩]
  | some (.str s) =>
    if s.length < 1 then
      .error [⟨[k], "String must contain at least 1 character(s)"⟩]
    else .ok s
  | some v => .error [⟨[k], "Expected string, received " ++ typeName v⟩]

/-- `z.string().optional()`. -/
def vOptStr (o : Obj) (k : String) : Except (List Issue) (Option String) :=
  match lookupField o k with
  | none => .ok none
  | some (.str s) => .ok (some s)
  | some v => .error [⟨[k], "Expected string, received " ++ typeName v⟩]

/-- `z.string().min(1).optional()`. -/
def vOptStr1 (o : Obj) (k : String) : Except (List Issue) (Option String) :=
  match lookupField o k with
  | none => .ok none
  | some (.str s) =>
    if s.length < 1 then
      .error [⟨[k], "String must contain at least 1 character(s)"⟩]
    else .ok (some s)
  | some v => .error [⟨[k], "Expected string, received " ++ typeName v⟩]

/-- `z.boolean().optional()`. -/
def vOptBool (o : Obj) (k : String) : Except (List Issue) (Option Bool) :=
  match lookupField o k with
  | none => .ok none
  | some (.bool b) => .ok (some b)
  | some v => .error [⟨[k], "Expected boolean, received " ++ typeName v⟩]

/-- `z.number().optional()`. -/
def vOptNum (o : Obj) (k : String) : Except (List Issue) (Option Int) :=
  match lookupField o k with
  | none => .ok none
  | some (.num n) => .ok (some n)
  | some v => .error [⟨[k], "Expected number, received " ++ typeName v⟩]

/-- `z.number().positive().optional()`. -/
def vOptNumPos (o : Obj) (k : String) : Except (List Issue) (Option Int) :=
  match lookupField o k with
  | none => .ok none
  | some (.num n) =>
    if n ≤ 0 then .error [⟨[k], "Number must be greater than 0"⟩]
    else .ok (some n)
  | some v => .error [⟨[k], "Expected number, received " ++ typeName v⟩]

/-- `z.number().nonnegative().optional()`. -/
def vOptNumNonneg (o : Obj) (k : String) : Except (List Issue) (Option Int) :=
  match lookupField o k with
  | none => .ok none
  | some (.num n) =>
    if n < 0 then .error [⟨[k], "Number must be greater than or equal to 0"⟩]
    else .ok (some n)
  | some v => .error [⟨[k], "Expected number, received " ++ typeName v⟩]

/-- `z.number().nonnegative()` on a required field (`tab_switch.index`). -/
def vReqNumNonneg (o : Obj) (k : String) : Except (List Issue) Int :=
  match lookupField o k with
  | none => .error [⟨[k], "Required"⟩]
  | some (.num n) =>
    if n < 0 then .error [⟨[k], "Number must be greater than or equal to 0"⟩]
    else .ok n
  | some v => .error [⟨[k], "Expected number, received " ++ typeName v⟩]

/-- `z.number().min(0).max(100).optional()` (`screenshot.quality`). -/
def vOptQuality (o : Obj) (k : String) : Except (List Issue) (Option Int) :=
  match lookupField o k with
  | none => .ok none
  | some (.num n) =>
    if n < 0 then .error [⟨[k], "Number must be greater than or equal to 0"⟩]
    else if 100 < n then .error [⟨[k], "Number must be less than or equal to 100"⟩]
    else .ok (some n)
  | some v => .error [⟨[k], "Expected number, received " ++ typeName v⟩]

/-- `z.array(z.unknown()).optional()` (`evaluate.args`). -/
def vOptArgs (o : Obj) (k : String) : Except (List Issue) (Option (List JVal)) :=
  match lookupField o k with
  | none => .ok none
  | some (.arr xs) => .ok (some xs)
  | some v => .error [⟨[k], "Expected array, received " ++ typeName v⟩]

def enumLookup : List (String × α) → String → Option α
  | [], _ => none
  | (k, v) :: rest, s => if k = s then some v else enumLookup rest s

def enumExpected : List (String × α) → String
  | [] => ""
  | [(k, _)] => "'" ++ k ++ "'"
  | (k, _) :: rest => "'" ++ k ++ "' | " ++ enumExpected rest

/-- `z.enum([...]).optional()`. -/
def vOptEnum (pairs : List (String × α)) (o : Obj) (k : String) :
    Except (List Issue) (Option α) :=
  match lookupField o k with
  | none => .ok none
  | some (.str s) =>
    match enumLookup pairs s with
    | some a => .ok (some a)
    | none =>
      .error [⟨[k], "Invalid enum value. Expected " ++ enumExpected pairs ++
        ", received '" ++ s ++ "'"⟩]
  | some v =>
    .error [⟨[k], "Expected " ++ enumExpected pairs ++ ", received " ++ typeName v⟩]

def browserPairs : List (String × BrowserKind) :=
  [("chromium", .chromium), ("firefox", .firefox), ("webkit", .webkit)]

def waitUntilPairs : List (String × WaitUntil) :=
  [("load", .load), ("domcontentloaded", .domcontentloaded), ("networkidle", .networkidle)]

def buttonPairs : List (String × MouseButton) :=
  [("left", .left), ("right", .right), ("middle", .middle)]

def formatPairs : List (String × ImgFormat) :=
  [("png", .png), ("jpeg", .jpeg)]

def statePairs : List (String × WaitState) :=
  [("attached", .attached), ("detached", .detached), ("visible", .visible), ("hidden", .hidden)]

def directionPairs : List (String × ScrollDir) :=
  [("up", .up), ("down", .down), ("left", .left), ("right", .right)]

/-- The nested `viewport` object: issues carry the path `[k, field]`. -/
def vPosField (base : String) (o : Obj) (k : String) : Except (List Issue) Int :=
  match lookupField o k with
  | none => .error [⟨[base, k], "Required"⟩]
  | some (.num n) =>
    if n ≤ 0 then .error [⟨[base, k], "Number must be greater than 0"⟩]
    else .ok n
  | some v => .error [⟨[base, k], "Expected number, received " ++ typeName v⟩]

def vOptViewport (o : Obj) (k : String) : Except (List Issue) (Option Viewport) :=
  match lookupField o k with
  | none => .ok none
  | some (.obj vo) =>
    match vPosField k vo "width", vPosField k vo "height" with
    | .ok w, .ok h => .ok (some ⟨w, h⟩)
    | rw, rh => .error (errs rw ++ errs rh)
  | some v => .error [⟨[k], "Expected object, received " ++ typeName v⟩]

/-- Coerce a JSON array to a string list (the `z.array(z.string())` branch). -/
def strListOf : List JVal → Option (List String)
  | [] => some []
  | .str s :: rest => (strListOf rest).map (s :: ·)
  | _ => none

/-- `values: z.union([z.string(), z.array(z.string())])`; a value matching
neither branch yields zod's union message "Invalid input". -/
def vValues (o : Obj) (k : String) : Except (List Issue) SelectValues :=
  match lookupField o k with
  | none => .error [⟨[k], "Required"⟩]
  | some (.str s) => .ok (.single s)
  | some (.arr xs) =>
    match strListOf xs with
    | some ss => .ok (.many ss)
    | none => .error [⟨[k], "Invalid input"⟩]
  | some _ => .error [⟨[k], "Invalid input"⟩]

-- ---------------------------------------------------------------------
-- Per-action schemas (protocol.ts lines 11-129)
-- ---------------------------------------------------------------------

def parseLaunch (o : Obj) : Except (List Issue) Command :=
  match vReqStr o "id", vOptBool o "headless", vOptViewport o "viewport",
      vOptEnum browserPairs o "browser" with
  | .ok i, .ok h, .ok vp, .ok b => .ok (.launch i h vp b)
  | ri, rh, rvp, rb => .error (errs ri ++ errs rh ++ errs rvp ++ errs rb)

def parseNavigate (o : Obj) : Except (List Issue) Command :=
  match vReqStr o "id", vReqStr1 o "url", vOptEnum waitUntilPairs o "waitUntil" with
  | .ok i, .ok u, .ok w => .ok (.navigate i u w)
  | ri, ru, rw => .error (errs ri ++ errs ru ++ errs rw)

def parseClick (o : Obj) : Except (List Issue) Command :=
  match vReqStr o "id", vReqStr1 o "selector", vOptEnum buttonPairs o "button",
      vOptNumPos o "clickCount", vOptNumNonneg o "delay" with
  | .ok i, .ok s, .ok b, .ok c, .ok d => .ok (.click i s b c d)
  | ri, rs, rb, rc, rd => .error (errs ri ++ errs rs ++ errs rb ++ errs rc ++ errs rd)

def parseType (o : Obj) : Except (List Issue) Command :=
  match vReqStr o "id", vReqStr1 o "selector", vReqStr o "text",
      vOptNumNonneg o "delay", vOptBool o "clear" with
  | .ok i, .ok s, .ok t, .ok d, .ok c => .ok (.type i s t d c)
  | ri, rs, rt, rd, rc => .error (errs ri ++ errs rs ++ errs rt ++ errs rd ++ errs rc)

def parsePress (o : Obj) : Except (List Issue) Command :=
  match vReqStr o "id", vReqStr1 o "key", vOptStr1 o "selector" with
  | .ok i, .ok k, .ok s => .ok (.press i k s)
  | ri, rk, rs => .error (errs ri ++ errs rk ++ errs rs)

def parseScreenshot (o : Obj) : Except (List Issue) Command :=
  match vReqStr o "id", vOptStr o "path", vOptBool o "fullPage", vOptStr1 o "selector",
      vOptEnum formatPairs o "format", vOptQuality o "quality" with
  | .ok i, .ok p, .ok f, .ok s, .ok fo, .ok q => .ok (.screenshot i p f s fo q)
  | ri, rp, rf, rs, rfo, rq =>
    .error (errs ri ++ errs rp ++ errs rf ++ errs rs ++ errs rfo ++ errs rq)

def parseSnapshot (o : Obj) : Except (List Issue) Command :=
  match vReqStr o "id" with
  | .ok i => .ok (.snapshot i)
  | ri => .error (errs ri)

def parseEvaluate (o : Obj) : Except (List Issue) Command :=
  match vReqStr o "id", vReqStr1 o "script", vOptArgs o "args" with
  | .ok i, .ok s, .ok a => .ok (.evaluate i s a)
  | ri, rs, ra => .error (errs ri ++ errs rs ++ errs ra)

def parseWait (o : Obj) : Except (List Issue) Command :=
  match vReqStr o "id", vOptStr1 o "selector", vOptNumPos o "timeout",
      vOptEnum statePairs o "state" with
  | .ok i, .ok s, .ok t, .ok st => .ok (.wait i s t st)
  | ri, rs, rt, rst => .error (errs ri ++ errs rs ++ errs rt ++ errs rst)

def parseScroll (o : Obj) : Except (List Issue) Command :=
  match vReqStr o "id", vOptStr1 o "selector", vOptNum o "x", vOptNum o "y",
      vOptEnum directionPairs o "direction", vOptNumPos o "amount" with
  | .ok i, .ok s, .ok x, .ok y, .ok d, .ok a => .ok (.scroll i s x y d a)
  | ri, rs, rx, ry, rd, ra =>
    .error (errs ri ++ errs rs ++ errs rx ++ errs ry ++ errs rd ++ errs ra)

def parseSelect (o : Obj) : Except (List Issue) Command :=
  match vReqStr o "id", vReqStr1 o "selector", vValues o "values" with
  | .ok i, .ok s, .ok v => .ok (.select i s v)
  | ri, rs, rv => .error (errs ri ++ errs rs ++ errs rv)

def parseHover (o : Obj) : Except (List Issue) Command :=
  match vReqStr o "id", vReqStr1 o "selector" with
  | .ok i, .ok s => .ok (.hover i s)
  | ri, rs => .error (errs ri ++ errs rs)

def parseContent (o : Obj) : Except (List Issue) Command :=
  match vReqStr o "id", vOptStr1 o "selector" with
  | .ok i, .ok s => .ok (.content i s)
  | ri, rs => .error (errs ri ++ errs rs)

def parseClose (o : Obj) : Except (List Issue) Command :=
  match vReqStr o "id" with
  | .ok i => .ok (.close i)
  | ri => .error (errs ri)

def parseTabNew (o : Obj) : Except (List Issue) Command :=
  match vReqStr o "id" with
  | .ok i => .ok (.tab_new i)
  | ri => .error (errs ri)

def parseTabList (o : Obj) : Except (List Issue) Command :=
  match vReqStr o "id" with
  | .ok i => .ok (.tab_list i)
  | ri => .error (errs ri)

def parseTabSwitch (o : Obj) : Except (List Issue) Command :=
  match vReqStr o "id", vReqNumNonneg o "index" with
  | .ok i, .ok n => .ok (.tab_switch i n)
  | ri, rn => .error (errs ri ++ errs rn)

def parseTabClose (o : Obj) : Except (List Issue) Command :=
  match vReqStr o "id", vOptNumNonneg o "index" with
  | .ok i, .ok n => .ok (.tab_close i n)
  | ri, rn => .error (errs ri ++ errs rn)

def parseWindowNew (o : Obj) : Except (List Issue) Command :=
  match vReqStr o "id", vOptViewport o "viewport" with
  | .ok i, .ok vp => .ok (.window_new i vp)
  | ri, rvp => .error (errs ri ++ errs rvp)

/-- zod's invalid-discriminator message for `commandSchema`. -/
def discriminatorMsg : String :=
  "Invalid discriminator value. Expected 'launch' | 'navigate' | 'click' | 'type' | " ++
  "'press' | 'screenshot' | 'snapshot' | 'evaluate' | 'wait' | 'scroll' | 'select' | " ++
  "'hover' | 'content' | 'close' | 'tab_new' | 'tab_list' | 'tab_switch' | " ++
  "'tab_close' | 'window_new'"

/-- Dispatch on the `action` discriminator (`z.discriminatedUnion('action', ...)`). -/
def parseByAction (a : String) (o : Obj) : Except (List Issue) Command :=
  if a = "launch" then parseLaunch o
  else if a = "navigate" then parseNavigate o
  else if a = "click" then parseClick o
  else if a = "type" then parseType o
  else if a = "press" then parsePress o
  else if a = "screenshot" then parseScreenshot o
  else if a = "snapshot" then parseSnapshot o
  else if a = "evaluate" then parseEvaluate o
  else if a = "wait" then parseWait o
  else if a = "scroll" then parseScroll o
  else if a = "select" then parseSelect o
  else if a = "hover" then parseHover o
  else if a = "content" then parseContent o
  else if a = "close" then parseClose o
  else if a = "tab_new" then parseTabNew o
  else if a = "tab_list" then parseTabList o
  else if a = "tab_switch" then parseTabSwitch o
  else if a = "tab_close" then parseTabClose o
  else if a = "window_new" then parseWindowNew o
  else .error [⟨["action"], discriminatorMsg⟩]

/-- `commandSchema.safeParse` (protocol.ts line 177). -/
def safeParse : JVal → Except (List Issue) Command
  | .obj o =>
    match lookupField o "action" with
    | some (.str a) => parseByAction a o
    | _ => .error [⟨["action"], discriminatorMsg⟩]
  | v => .error [⟨[], "Expected object, received " ++ typeName v⟩]

-- ---------------------------------------------------------------------
-- parseCommand (protocol.ts lines 162-187)
-- ---------------------------------------------------------------------

/-- `ParseResult` of protocol.ts. -/
inductive ParseResult where
  | success (command : Command)
  | failure (error : String) (id : Option String)

/-- `e.path.join('.')`. -/
def joinDot : List String → String
  | [] => ""
  | [p] => p
  | p :: rest => p ++ "." ++ joinDot rest

/-- One formatted issue: `` `${e.path.join('.')}: ${e.message}` ``. -/
def fmtIssue (i : Issue) : String := joinDot i.path ++ ": " ++ i.message

/-- `.join(', ')`. -/
def joinComma : List String → String
  | [] => ""
  | [s] => s
  | s :: rest => s ++ ", " ++ joinComma rest

/-- The full validation-failure message of `parseCommand`. -/
def fmtErrors (es : List Issue) : String :=
  "Validation error: " ++ joinComma (es.map fmtIssue)

/-- protocol.ts lines 172-174: the `id` extracted for error responses
(`typeof json === 'object' && json !== null && 'id' in json`). -/
def extractId : JVal → Option String
  | .obj o => (lookupField o "id").map jsToString
  | _ => none

/-- `parseCommand` (protocol.ts line 162). The argument is the result of
the `JSON.parse` attempt: `none` when parsing threw (`Invalid JSON`),
`some j` when it yielded the JSON value `j`. -/
def parseCommand : Option JVal → ParseResult
  | none => .failure "Invalid JSON" none
  | some j =>
    match safeParse j with
    | .ok c => .success c
    | .error es => .failure (fmtErrors es) (extractId j)

-- ---------------------------------------------------------------------
-- Encoding a Command back to JSON (JSON.stringify of a Command value)
-- ---------------------------------------------------------------------

/-- `JSON.stringify` omits fields holding `undefined`. -/
def optJField (k : String) : Option JVal → Obj
  | none => []
  | some v => [(k, v)]

def encodeViewport (v : Viewport) : JVal :=
  .obj [("width", .num v.width), ("height", .num v.height)]

def encodeValues : SelectValues → JVal
  | .single s => .str s
  | .many ss => .arr (ss.map .str)

/-- The JSON value produced by serializing a `Command` record carrying
exactly the fields its interface declares. -/
def encodeCommand : Command → JVal
  | .launch i h vp b => .obj
      ([("id", .str i), ("action", .str "launch")] ++
       optJField "headless" (h.map .bool) ++
       optJField "viewport" (vp.map encodeViewport) ++
       optJField "browser" (b.map (fun x => .str x.toStr)))
  | .navigate i u w => .obj
      ([("id", .str i), ("action", .str "navigate"), ("url", .str u)] ++
       optJField "waitUntil" (w.map (fun x => .str x.toStr)))
  | .click i s b c d => .obj
      ([("id", .str i), ("action", .str "click"), ("selector", .str s)] ++
       optJField "button" (b.map (fun x => .str x.toStr)) ++
       optJField "clickCount" (c.map .num) ++
       optJField "delay" (d.map .num))
  | .type i s t d c => .obj
      ([("id", .str i), ("action", .str "type"), ("selector", .str s), ("text", .str t)] ++
       optJField "delay" (d.map .num) ++
       optJField "clear" (c.map .bool))
  | .press i k s => .obj
      ([("id", .str i), ("action", .str "press"), ("key", .str k)] ++
       optJField "selector" (s.map .str))
  | .screenshot i p f s fo q => .obj
      ([("id", .str i), ("action", .str "screenshot")] ++
       optJField "path" (p.map .str) ++
       optJField "fullPage" (f.map .bool) ++
       optJField "selector" (s.map .str) ++
       optJField "format" (fo.map (fun x => .str x.toStr)) ++
       optJField "quality" (q.map .num))
  | .snapshot i => .obj [("id", .str i), ("action", .str "snapshot")]
  | .evaluate i s a => .obj
      ([("id", .str i), ("action", .str "evaluate"), ("script", .str s)] ++
       optJField "args" (a.map .arr))
  | .wait i s t st => .obj
      ([("id", .str i), ("action", .str "wait")] ++
       optJField "selector" (s.map .str) ++
       optJField "timeout" (t.map .num) ++
       optJField "state" (st.map (fun x => .str x.toStr)))
  | .scroll i s x y d a => .obj
      ([("id", .str i), ("action", .str "scroll")] ++
       optJField "selector" (s.map .str) ++
       optJField "x" (x.map .num) ++
       optJField "y" (y.map .num) ++
       optJField "direction" (d.map (fun v => .str v.toStr)) ++
       optJField "amount" (a.map .num))
  | .select i s v => .obj
      [("id", .str i), ("action", .str "select"), ("selector", .str s),
       ("values", encodeValues v)]
  | .hover i s => .obj
      [("id", .str i), ("action", .str "hover"), ("selector", .str s)]
  | .content i s => .obj
      ([("id", .str i), ("action", .str "content")] ++
       optJField "selector" (s.map .str))
  | .close i => .obj [("id", .str i), ("action", .str "close")]
  | .tab_new i => .obj [("id", .str i), ("action", .str "tab_new")]
  | .tab_list i => .obj [("id", .str i), ("action", .str "tab_list")]
  | .tab_switch i n => .obj
      [("id", .str i), ("action", .str "tab_switch"), ("index", .num n)]
  | .tab_close i n => .obj
      ([("id", .str i), ("action", .str "tab_close")] ++
       optJField "index" (n.map .num))
  | .window_new i vp => .obj
      ([("id", .str i), ("action", .str "window_new")] ++
       optJField "viewport" (vp.map encodeViewport))

/-- The per-field value constraints of `commandSchema` beyond the field
types of the `Command` union: non-emptiness (`min(1)`), positivity,
non-negativity and range bounds. -/
def Command.schemaValidB : Command → Bool
  | .launch _ _ vp _ => vp.all (fun v => 0 < v.width && 0 < v.height)
  | .navigate _ u _ => 1 ≤ u.length
  | .click _ s _ c d => 1 ≤ s.length && c.all (0 < ·) && d.all (0 ≤ ·)
  | .type _ s _ d _ => 1 ≤ s.length && d.all (0 ≤ ·)
  | .press _ k s => 1 ≤ k.length && s.all (1 ≤ ·.length)
  | .screenshot _ _ _ s _ q =>
      s.all (1 ≤ ·.length) && q.all (fun n => 0 ≤ n && n ≤ 100)
  | .snapshot _ => true
  | .evaluate _ s _ => 1 ≤ s.length
  | .wait _ s t _ => s.all (1 ≤ ·.length) && t.all (0 < ·)
  | .scroll _ s _ _ _ a => s.all (1 ≤ ·.length) && a.all (0 < ·)
  | .select _ s _ => 1 ≤ s.length
  | .hover _ s => 1 ≤ s.length
  | .content _ s => s.all (1 ≤ ·.length)
  | .close _ => true
  | .tab_new _ => true
  | .tab_list _ => true
  | .tab_switch _ n => 0 ≤ n
  | .tab_close _ n => n.all (0 ≤ ·)
  | .window_new _ vp => vp.all (fun v => 0 < v.width && 0 < v.height)

-- ---------------------------------------------------------------------
-- The dispatcher world (handlers.ts + the capability oracle)
-- ---------------------------------------------------------------------

/-- Screenshot options assembled by `handleScreenshot` (`fullPage`,
`type: format ?? 'png'`, `quality` only for jpeg). -/
structure ShotOpts where
  fullPage : Option Bool
  format : ImgFormat
  quality : Option Int
deriving DecidableEq

/-- One engine (Playwright) or BrowserManager call made by a handler, with
the arguments the source passes to it. -/
inductive Effect where
  | launch
  | goto (url : String) (waitUntil : WaitUntil)
  | pageUrl
  | pageTitle
  | click (selector : String) (button : Option MouseButton)
      (clickCount : Option Int) (delay : Option Int)
  | fill (selector : String) (text : String)
  | typeText (selector : String) (text : String) (delay : Option Int)
  | press (selector : String) (key : String)
  | keyboardPress (key : String)
  | screenshot (selector : Option String) (options : ShotOpts) (path : Option String)
  | ariaSnapshot
  | evalScript (script : String)
  | waitForSelector (selector : String) (state : WaitState) (timeout : Option Int)
  | waitForTimeout (ms : Int)
  | waitForLoadState
  | scrollIntoView (selector : String)
  | elemScrollBy (selector : String) (x : Int) (y : Int)
  | selectOption (selector : String) (values : List String)
  | hover (selector : String)
  | innerHTML (selector : String)
  | pageContent
  | closeBrowser
  | newTab
  | newWindow (viewport : Option Viewport)
deriving DecidableEq

/-- The automation capability as an oracle (spec §6: an opaque external
collaborator): for each call it either throws a fault (`fault e = some m`,
the thrown message) or returns the recorded result. -/
structure Capability where
  fault : Effect → Option String
  strRes : Effect → String
  optStrRes : Effect → Option String
  bytesRes : Effect → List Nat
  jsonRes : Effect → JVal

/-- One open page as seen by the tab-management layer. -/
structure TabEntry where
  url : String
  title : String
deriving DecidableEq

/-- The daemon-side browser state: the ordered open-page collection with its
active index (spec §3 "Daemon Host state") plus the engine oracle. -/
structure BrowserManager where
  tabs : List TabEntry
  active : Nat
  cap : Capability

abbrev Trace := List Effect

/-- The execution monad of a handler: state (BrowserManager), a trace of
issued engine calls, and short-circuiting thrown faults. -/
def M (α : Type) : Type :=
  BrowserManager → Trace → Except String (α × BrowserManager × Trace)

def mret (a : α) : M α := fun st tr => .ok (a, st, tr)

def mbind (x : M α) (f : α → M β) : M β := fun st tr =>
  match x st tr with
  | .error e => .error e
  | .ok (a, st1, tr1) => f a st1 tr1

instance instMonadM : Monad M where
  pure := mret
  bind := mbind

theorem M.bind_eq (x : M α) (f : α → M β) : x >>= f = mbind x f := rfl

theorem M.pure_eq (a : α) : (pure a : M α) = mret a := rfl

/-- Issue an engine call that returns nothing observable. -/
def effCall (e : Effect) : M Unit := fun st tr =>
  match st.cap.fault e with
  | some m => .error m
  | none => .ok ((), st, tr ++ [e])

/-- Issue an engine call returning a string. -/
def effCallStr (e : Effect) : M String := fun st tr =>
  match st.cap.fault e with
  | some m => .error m
  | none => .ok (st.cap.strRes e, st, tr ++ [e])

/-- Issue an engine call returning a nullable string (`ariaSnapshot`). -/
def effCallOptStr (e : Effect) : M (Option String) := fun st tr =>
  match st.cap.fault e with
  | some m => .error m
  | none => .ok (st.cap.optStrRes e, st, tr ++ [e])

/-- Issue an engine call returning bytes (screenshot buffer). -/
def effCallBytes (e : Effect) : M (List Nat) := fun st tr =>
  match st.cap.fault e with
  | some m => .error m
  | none => .ok (st.cap.bytesRes e, st, tr ++ [e])

/-- Issue an engine call returning a JSON value (`page.evaluate`). -/
def effCallJson (e : Effect) : M JVal := fun st tr =>
  match st.cap.fault e with
  | some m => .error m
  | none => .ok (st.cap.jsonRes e, st, tr ++ [e])

-- ---------------------------------------------------------------------
-- BrowserManager operations (browser.ts is not among the given sources)
-- ---------------------------------------------------------------------

def defaultTab : TabEntry := ⟨"about:blank", ""⟩

/-- Modelled from the spec: `browser.getPage()` of the missing browser.ts
returns the active page; spec §4.4 gives the daemon "browser + context +
one initial page", so with no open page the capability is unusable and the
call throws. Engine calls implicitly target the active page. -/
def getPage : M Unit := fun st tr =>
  if st.tabs.isEmpty then .error "No page available" else .ok ((), st, tr)

/-- Modelled from the spec: `browser.launch` (missing browser.ts) acquires
the capability and opens one initial page (spec §4.4 `Starting`). -/
def bmLaunch : M Unit := fun st tr =>
  match st.cap.fault .launch with
  | some m => .error m
  | none => .ok ((), { st with tabs := [defaultTab], active := 0 }, tr ++ [Effect.launch])

/-- Modelled from the spec: `browser.close` releases the capability. -/
def bmClose : M Unit := fun st tr =>
  match st.cap.fault .closeBrowser with
  | some m => .error m
  | none => .ok ((), { st with tabs := [], active := 0 }, tr ++ [Effect.closeBrowser])

/-- `tab_new` response data (types.ts `TabNewData`). -/
structure TabNewData where
  index : Nat
  total : Nat
deriving DecidableEq

/-- Modelled from the spec: `browser.newTab` = `openPage() -> index` (§6);
the new page is appended and becomes active. -/
def bmNewTab : M TabNewData := fun st tr =>
  match st.cap.fault .newTab with
  | some m => .error m
  | none =>
    let ts := st.tabs ++ [defaultTab]
    .ok (⟨st.tabs.length, ts.length⟩,
         { st with tabs := ts, active := st.tabs.length }, tr ++ [Effect.newTab])

/-- Modelled from the spec: `browser.newWindow(viewport?)` = `openWindow`
(§6), behaving like `openPage` for the page collection. -/
def bmNewWindow (vp : Option Viewport) : M TabNewData := fun st tr =>
  match st.cap.fault (.newWindow vp) with
  | some m => .error m
  | none =>
    let ts := st.tabs ++ [defaultTab]
    .ok (⟨st.tabs.length, ts.length⟩,
         { st with tabs := ts, active := st.tabs.length }, tr ++ [Effect.newWindow vp])

/-- One entry of the `tab_list` response (types.ts `TabInfo`). -/
structure TabInfo where
  index : Nat
  url : String
  title : String
  active : Bool
deriving DecidableEq

/-- Modelled from the spec: `browser.listTabs()` = `listPages()` (§6). -/
def bmListTabs : M (List TabInfo) := fun st tr =>
  .ok (st.tabs.enum.map (fun p => ⟨p.1, p.2.url, p.2.title, p.1 == st.active⟩), st, tr)

/-- `browser.getActiveIndex()`. -/
def bmGetActiveIndex : M Nat := fun st tr => .ok (st.active, st, tr)

/-- `tab_switch` partial response data (index and url; the handler adds the
title). -/
structure TabSwitchInfo where
  index : Int
  url : String
deriving DecidableEq

/-- Modelled from the spec: `browser.switchTo(index)` = `switchPage(index)`
(§6); §4.3(a): a referenced tab index must exist, otherwise the operation
fails. -/
def bmSwitchTo (i : Int) : M TabSwitchInfo := fun st tr =>
  if 0 ≤ i ∧ i.toNat < st.tabs.length then
    .ok (⟨i, (st.tabs.getD i.toNat defaultTab).url⟩, { st with active := i.toNat }, tr)
  else .error ("Invalid tab index: " ++ toString i)

/-- `tab_close` response data (types.ts `TabCloseData`). -/
structure TabCloseData where
  closed : Nat
  remaining : Nat
deriving DecidableEq

/-- Modelled from the spec: `browser.closeTab(index?)` = `closePage(index?)`
(§6). "tab_close without an index always targets the currently active tab;
after closing, the new active index is the lowest remaining index, and
remaining = previousCount - 1" (§8); an out-of-range index fails (§4.3(a)). -/
def bmCloseTab (idx : Option Int) : M TabCloseData := fun st tr =>
  let target : Int := idx.getD (st.active : Int)
  if 0 ≤ target ∧ target.toNat < st.tabs.length then
    .ok (⟨target.toNat, st.tabs.length - 1⟩,
         { st with tabs := st.tabs.eraseIdx target.toNat, active := 0 }, tr)
  else .error ("Invalid tab index: " ++ toString target)

-- ---------------------------------------------------------------------
-- Responses (types.ts / protocol.ts)
-- ---------------------------------------------------------------------

/-- The `data` payloads of success responses, one shape per action
(types.ts `NavigateData`, `ScreenshotData`, ... and the inline literals of
handlers.ts). -/
inductive RData where
  | launched
  | navigated (url : String) (title : String)
  | clicked
  | typed
  | pressed
  | shotPath (path : String)
  | shotB64 (base64 : String)
  | snapshotText (snapshot : String)
  | evalResult (result : JVal)
  | waited
  | scrolled
  | selected (values : List String)
  | hovered
  | htmlContent (html : String)
  | closed
  | tabNew (d : TabNewData)
  | tabListing (tabs : List TabInfo) (active : Nat)
  | tabSwitched (index : Int) (url : String) (title : String)
  | tabClosed (d : TabCloseData)

/-- types.ts `Response`: `id`, `success`, and `data` (success) or `error`
(failure). -/
structure Response where
  id : String
  success : Bool
  data : Option RData
  error : Option String

/-- protocol.ts `successResponse`. -/
def successResponse (id : String) (data : RData) : Response :=
  ⟨id, true, some data, none⟩

/-- protocol.ts `errorResponse`. -/
def errorResponse (id : String) (error : String) : Response :=
  ⟨id, false, none, some error⟩

-- ---------------------------------------------------------------------
-- Handlers (handlers.ts lines 265-544)
-- ---------------------------------------------------------------------

/-- JS truthiness of an optional string field (`if (command.selector)`):
present and non-empty. -/
def truthyStr : Option String → Option String
  | some s => if s = "" then none else some s
  | none => none

/-- JS truthiness of an optional numeric field (`if (command.timeout)`):
present and non-zero. -/
def truthyNum : Option Int → Option Int
  | some n => if n = 0 then none else some n
  | none => none

def b64Alphabet : List Char :=
  "ABCDEFGHIJKLMNOPQRSTUVWXYZabcdefghijklmnopqrstuvwxyz0123456789+/".data

def b64Char (n : Nat) : Char := b64Alphabet.getD n 'A'

/-- Node's `buffer.toString('base64')`: standard base64 with padding. -/
def base64Encode : List Nat → String
  | [] => ""
  | [a] => String.mk [b64Char (a / 4), b64Char (a % 4 * 16), '=', '=']
  | [a, b] => String.mk [b64Char (a / 4), b64Char (a % 4 * 16 + b / 16),
      b64Char (b % 16 * 4), '=']
  | a :: b :: c :: rest => String.mk [b64Char (a / 4), b64Char (a % 4 * 16 + b / 16),
      b64Char (b % 16 * 4 + c / 64), b64Char (c % 64)] ++ base64Encode rest

def handleLaunch (id : String) : M Response := do
  bmLaunch
  pure (successResponse id .launched)

def handleNavigate (id url : String) (waitUntil : Option WaitUntil) : M Response := do
  getPage
  effCall (.goto url (waitUntil.getD .load))
  let u ← effCallStr .pageUrl
  let t ← effCallStr .pageTitle
  pure (successResponse id (.navigated u t))

def handleClick (id selector : String) (button : Option MouseButton)
    (clickCount delay : Option Int) : M Response := do
  getPage
  effCall (.click selector button clickCount delay)
  pure (successResponse id .clicked)

def handleType (id selector text : String) (delay : Option Int)
    (clear : Option Bool) : M Response := do
  getPage
  if clear.getD false then effCall (.fill selector "")
  effCall (.typeText selector text delay)
  pure (successResponse id .typed)

def handlePress (id key : String) (selector : Option String) : M Response := do
  getPage
  match truthyStr selector with
  | some s => effCall (.press s key)
  | none => effCall (.keyboardPress key)
  pure (successResponse id .pressed)

/-- The screenshot options object assembled at handlers.ts lines 340-347:
`fullPage`, `type: command.format ?? 'png'`, and `quality` only when the
format is jpeg and a quality was given. -/
def shotOptsOf (fullPage : Option Bool) (format : Option ImgFormat)
    (quality : Option Int) : ShotOpts :=
  ⟨fullPage, format.getD .png,
   if format = some .jpeg ∧ quality ≠ none then quality else none⟩

def handleScreenshot (id : String) (path : Option String) (fullPage : Option Bool)
    (selector : Option String) (format : Option ImgFormat)
    (quality : Option Int) : M Response := do
  getPage
  let options : ShotOpts := shotOptsOf fullPage format quality
  let target := truthyStr selector
  match truthyStr path with
  | some p => do
    effCall (.screenshot target options (some p))
    pure (successResponse id (.shotPath p))
  | none => do
    let buffer ← effCallBytes (.screenshot target options none)
    pure (successResponse id (.shotB64 (base64Encode buffer)))

def handleSnapshot (id : String) : M Response := do
  getPage
  let snapshot ← effCallOptStr .ariaSnapshot
  pure (successResponse id (.snapshotText (snapshot.getD "Empty page")))

def handleEvaluate (id script : String) : M Response := do
  getPage
  let result ← effCallJson (.evalScript script)
  pure (successResponse id (.evalResult result))

def handleWait (id : String) (selector : Option String) (timeout : Option Int)
    (state : Option WaitState) : M Response := do
  getPage
  match truthyStr selector with
  | some s => effCall (.waitForSelector s (state.getD .visible) timeout)
  | none =>
    match truthyNum timeout with
    | some t => effCall (.waitForTimeout t)
    | none => effCall .waitForLoadState
  pure (successResponse id .waited)

/-- The script string interpolated by handleScroll:
`` `window.scrollBy(${deltaX}, ${deltaY})` ``. -/
def scrollScript (dx dy : Int) : String :=
  "window.scrollBy(" ++ toString dx ++ ", " ++ toString dy ++ ")"

def handleScroll (id : String) (selector : Option String) (x y : Option Int)
    (direction : Option ScrollDir) (amount : Option Int) : M Response := do
  getPage
  match truthyStr selector with
  | some s => do
    effCall (.scrollIntoView s)
    if x ≠ none ∨ y ≠ none then
      effCall (.elemScrollBy s (x.getD 0) (y.getD 0))
  | none => do
    let deltaX := x.getD 0
    let deltaY := y.getD 0
    let (deltaX, deltaY) :=
      match direction with
      | none => (deltaX, deltaY)
      | some d =>
        let amt := amount.getD 100
        match d with
        | .up => (deltaX, -amt)
        | .down => (deltaX, amt)
        | .left => (-amt, deltaY)
        | .right => (amt, deltaY)
    effCall (.evalScript (scrollScript deltaX deltaY))
  pure (successResponse id .scrolled)

/-- handlers.ts line 458:
`Array.isArray(command.values) ? command.values : [command.values]`. -/
def selValuesList : SelectValues → List String
  | .single s => [s]
  | .many ss => ss

def handleSelect (id selector : String) (values : SelectValues) : M Response := do
  getPage
  let vals := selValuesList values
  effCall (.selectOption selector vals)
  pure (successResponse id (.selected vals))

def handleHover (id selector : String) : M Response := do
  getPage
  effCall (.hover selector)
  pure (successResponse id .hovered)

def handleContent (id : String) (selector : Option String) : M Response := do
  getPage
  let html ←
    match truthyStr selector with
    | some s => effCallStr (.innerHTML s)
    | none => effCallStr .pageContent
  pure (successResponse id (.htmlContent html))

def handleClose (id : String) : M Response := do
  bmClose
  pure (successResponse id .closed)

def handleTabNew (id : String) : M Response := do
  let result ← bmNewTab
  pure (successResponse id (.tabNew result))

def handleTabList (id : String) : M Response := do
  let tabs ← bmListTabs
  let active ← bmGetActiveIndex
  pure (successResponse id (.tabListing tabs active))

def handleTabSwitch (id : String) (index : Int) : M Response := do
  let result ← bmSwitchTo index
  getPage
  let title ← effCallStr .pageTitle
  pure (successResponse id (.tabSwitched result.index result.url title))

def handleTabClose (id : String) (index : Option Int) : M Response := do
  let result ← bmCloseTab index
  pure (successResponse id (.tabClosed result))

def handleWindowNew (id : String) (viewport : Option Viewport) : M Response := do
  let result ← bmNewWindow viewport
  pure (successResponse id (.tabNew result))

/-- The dispatch switch of `executeCommand` (handlers.ts lines 214-258).
The source's `default` arm is unreachable for the closed `Command` union
and has no counterpart here. -/
def runCommand : Command → M Response
  | .launch i _ _ _ => handleLaunch i
  | .navigate i u w => handleNavigate i u w
  | .click i s b c d => handleClick i s b c d
  | .type i s t d c => handleType i s t d c
  | .press i k s => handlePress i k s
  | .screenshot i p f s fo q => handleScreenshot i p f s fo q
  | .snapshot i => handleSnapshot i
  | .evaluate i s _ => handleEvaluate i s
  | .wait i s t st => handleWait i s t st
  | .scroll i s x y d a => handleScroll i s x y d a
  | .select i s v => handleSelect i s v
  | .hover i s => handleHover i s
  | .content i s => handleContent i s
  | .close i => handleClose i
  | .tab_new i => handleTabNew i
  | .tab_list i => handleTabList i
  | .tab_switch i n => handleTabSwitch i n
  | .tab_close i n => handleTabClose i n
  | .window_new i vp => handleWindowNew i vp

/-- handlers.ts `executeCommand` (lines 209-263): runs the matching handler
and converts any thrown capability fault into
`errorResponse(command.id, message)` via the surrounding try/catch.
Returns the response together with the final BrowserManager state and the
trace of issued engine calls (instrumentation; the TS function returns the
response alone). -/
def executeCommand (command : Command) (browser : BrowserManager) :
    Response × BrowserManager × Trace :=
  match runCommand command browser [] with
  | .ok (r, st, tr) => (r, st, tr)
  | .error m => (errorResponse command.id m, browser, [])

-- ---------------------------------------------------------------------
-- CLI command construction (index.ts)
-- ---------------------------------------------------------------------

def listHasPrefix : List Char → List Char → Bool
  | _, [] => true
  | [], _ :: _ => false
  | c :: cs, d :: ds => c = d && listHasPrefix cs ds

/-- JavaScript `String.prototype.startsWith`. -/
def strStartsWith (s p : String) : Bool := listHasPrefix s.data p.data

/-- index.ts case 'open' (lines 230-231):
`const fullUrl = url.startsWith('http') ? url : `https://${url}`;`. -/
def fullUrlOf (url : String) : String :=
  if strStartsWith url "http" then url else "https://" ++ url

/-- The navigate command the CLI constructs for `veb open <url>`
(index.ts line 232: `cmd = { id, action: 'navigate', url: fullUrl }`). -/
def buildOpenCommand (id url : String) : Command :=
  .navigate id (fullUrlOf url) none

-- ---------------------------------------------------------------------
-- Substring containment (for "the error message names the field")
-- ---------------------------------------------------------------------

def listContainsSeg : List Char → List Char → Bool
  | [], needle => needle.isEmpty
  | c :: rest, needle => listHasPrefix (c :: rest) needle || listContainsSeg rest needle

/-- `sub` occurs contiguously inside `hay`. -/
def strContains (hay sub : String) : Bool := listContainsSeg hay.data sub.data

/-- A capability oracle that never faults, with fixed results (a concrete
engine behavior for witness runs). -/
def cleanCap : Capability :=
  ⟨fun _ => none, fun _ => "ok", fun _ => some "snap", fun _ => [1, 2, 3], fun _ => .null⟩

/-- A capability oracle whose every operation throws "boom" (a concrete
faulty engine for witness runs). -/
def boomCap : Capability :=
  ⟨fun _ => some "boom", fun _ => "", fun _ => none, fun _ => [], fun _ => .null⟩

/-- A two-tab browser state over `cleanCap`, active tab 1 (fixture). -/
def sampleBM : BrowserManager :=
  ⟨[⟨"https://a", "A"⟩, ⟨"https://b", "B"⟩], 1, cleanCap⟩

/-- A one-tab browser state over `boomCap` (fixture). -/
def boomBM : BrowserManager := ⟨[defaultTab], 0, boomCap⟩

/-- The (action tag, required field) pairs of the command schemas: every
field of `commandSchema` that is not `.optional()` (besides the `id` and
`action` of the base schema). -/
def requiredFieldPairs : List (String × String) :=
  [("navigate", "url"), ("click", "selector"), ("type", "selector"), ("type", "text"),
   ("press", "key"), ("evaluate", "script"), ("select", "selector"), ("select", "values"),
   ("hover", "selector"), ("tab_switch", "index")]

/-- The value constraints `commandSchema` places on individual fields
beyond their type: `z.string().min(1)`, `z.number().positive()`,
`z.number().nonnegative()`, and `z.number().min(0).max(100)`. -/
inductive ValueRule where
  | minLen1
  | positive
  | nonneg
  | quality0to100
deriving DecidableEq

/-- A value of the right base type that violates the given rule. -/
def violatesB : ValueRule → JVal → Bool
  | .minLen1, .str s => s == ""
  | .positive, .num n => decide (n ≤ 0)
  | .nonneg, .num n => decide (n < 0)
  | .quality0to100, .num n => decide (n < 0) || decide (100 < n)
  | _, _ => false

/-- Every top-level field of `commandSchema` carrying a value constraint,
as (action tag, field, rule); the nested `viewport` object (launch,
window_new) is treated separately. -/
def constrainedFieldTriples : List (String × String × ValueRule) :=
  [("navigate", "url", .minLen1),
   ("click", "selector", .minLen1), ("click", "clickCount", .positive),
   ("click", "delay", .nonneg),
   ("type", "selector", .minLen1), ("type", "delay", .nonneg),
   ("press", "key", .minLen1), ("press", "selector", .minLen1),
   ("screenshot", "selector", .minLen1), ("screenshot", "quality", .quality0to100),
   ("evaluate", "script", .minLen1),
   ("wait", "selector", .minLen1), ("wait", "timeout", .positive),
   ("scroll", "selector", .minLen1), ("scroll", "amount", .positive),
   ("select", "selector", .minLen1),
   ("hover", "selector", .minLen1),
   ("content", "selector", .minLen1),
   ("tab_switch", "index", .nonneg), ("tab_close", "index", .nonneg)]

-- ---------------------------------------------------------------------
-- Round-trip helper lemmas
-- ---------------------------------------------------------------------

theorem enumLookup_browser (w : BrowserKind) : enumLookup browserPairs w.toStr = some w := by
  cases w <;> rfl

theorem enumLookup_waitUntil (w : WaitUntil) : enumLookup waitUntilPairs w.toStr = some w := by
  cases w <;> rfl

theorem enumLookup_button (w : MouseButton) : enumLookup buttonPairs w.toStr = some w := by
  cases w <;> rfl

theorem enumLookup_format (w : ImgFormat) : enumLookup formatPairs w.toStr = some w := by
  cases w <;> rfl

theorem enumLookup_state (w : WaitState) : enumLookup statePairs w.toStr = some w := by
  cases w <;> rfl

theorem enumLookup_direction (w : ScrollDir) : enumLookup directionPairs w.toStr = some w := by
  cases w <;> rfl

theorem strListOf_map (ss : List String) : strListOf (ss.map .str) = some ss := by
  induction ss with
  | nil => rfl
  | cons a rest ih => simp [strListOf, ih]

theorem if_le_zero_of_pos {n : Int} {α : Sort _} (A B : α) (h : 0 < n) :
    (if n ≤ 0 then A else B) = B := by rw [if_neg]; omega

theorem if_lt_zero_of_nonneg {n : Int} {α : Sort _} (A B : α) (h : 0 ≤ n) :
    (if n < 0 then A else B) = B := by rw [if_neg]; omega

theorem if_gt_hundred_of_le {n : Int} {α : Sort _} (A B : α) (h : n ≤ 100) :
    (if 100 < n then A else B) = B := by rw [if_neg]; omega

theorem if_len_lt_one {s : String} {α : Sort _} (A B : α) (h : 1 ≤ s.length) :
    (if s.length < 1 then A else B) = B := by rw [if_neg]; omega

theorem if_len_eq_zero {s : String} {α : Sort _} (A B : α) (h : 1 ≤ s.length) :
    (if s.length = 0 then A else B) = B := by rw [if_neg]; omega

set_option maxHeartbeats 2000000 in
/-- Round-trip of schema-valid commands: validating the serialized form of a
`Command` value whose field values satisfy the schemas' value constraints
recovers the command. -/
theorem parseCommand_encode_of_schemaValid (c : Command) (hv : c.schemaValidB = true) :
    parseCommand (some (encodeCommand c)) = .success c := by
  cases c with
  | launch i h vp b =>
    simp [Command.schemaValidB] at hv
    rcases h with _ | h <;> rcases vp with _ | ⟨w, ht⟩ <;> rcases b with _ | b <;>
      simp_all [parseCommand, safeParse, encodeCommand, parseByAction, parseLaunch,
        lookupField, optJField, vReqStr, vOptBool, vOptViewport, vPosField, encodeViewport,
        vOptEnum, errs, enumLookup_browser, Option.all, if_le_zero_of_pos]
  | navigate i u w =>
    simp [Command.schemaValidB] at hv
    rcases w with _ | w <;>
      simp_all [parseCommand, safeParse, encodeCommand, parseByAction, parseNavigate,
        lookupField, optJField, vReqStr, vReqStr1, vOptEnum, errs, enumLookup_waitUntil,
        if_len_lt_one, if_len_eq_zero]
  | click i s b cc d =>
    simp [Command.schemaValidB] at hv
    rcases b with _ | b <;> rcases cc with _ | cc <;> rcases d with _ | d <;>
      simp_all [parseCommand, safeParse, encodeCommand, parseByAction, parseClick,
        lookupField, optJField, vReqStr, vReqStr1, vOptNumPos, vOptNumNonneg,
        vOptEnum, errs, enumLookup_button, Option.all,
        if_le_zero_of_pos, if_lt_zero_of_nonneg, if_len_lt_one, if_len_eq_zero]
  | type i s t d cl =>
    simp [Command.schemaValidB] at hv
    rcases d with _ | d <;> rcases cl with _ | cl <;>
      simp_all [parseCommand, safeParse, encodeCommand, parseByAction, parseType,
        lookupField, optJField, vReqStr, vReqStr1, vOptNumNonneg, vOptBool, errs,
        Option.all, if_lt_zero_of_nonneg, if_len_lt_one, if_len_eq_zero]
  | press i k s =>
    simp [Command.schemaValidB] at hv
    rcases s with _ | s <;>
      simp_all [parseCommand, safeParse, encodeCommand, parseByAction, parsePress,
        lookupField, optJField, vReqStr, vReqStr1, vOptStr1, errs, Option.all,
        if_len_lt_one, if_len_eq_zero]
  | screenshot i p f s fo q =>
    simp [Command.schemaValidB] at hv
    rcases p with _ | p <;> rcases f with _ | f <;> rcases s with _ | s <;>
      rcases fo with _ | fo <;> rcases q with _ | q <;>
      simp_all [parseCommand, safeParse, encodeCommand, parseByAction, parseScreenshot,
        lookupField, optJField, vReqStr, vOptStr, vOptBool, vOptStr1, vOptQuality,
        vOptEnum, errs, enumLookup_format, Option.all,
        if_lt_zero_of_nonneg, if_gt_hundred_of_le, if_len_lt_one, if_len_eq_zero]
  | snapshot i =>
    simp [parseCommand, safeParse, encodeCommand, parseByAction, parseSnapshot,
      lookupField, vReqStr, errs]
  | evaluate i s a =>
    simp [Command.schemaValidB] at hv
    rcases a with _ | a <;>
      simp_all [parseCommand, safeParse, encodeCommand, parseByAction, parseEvaluate,
        lookupField, optJField, vReqStr, vReqStr1, vOptArgs, errs,
        if_len_lt_one, if_len_eq_zero]
  | wait i s t st =>
    simp [Command.schemaValidB] at hv
    rcases s with _ | s <;> rcases t with _ | t <;> rcases st with _ | st <;>
      simp_all [parseCommand, safeParse, encodeCommand, parseByAction, parseWait,
        lookupField, optJField, vReqStr, vOptStr1, vOptNumPos, vOptEnum, errs,
        enumLookup_state, Option.all, if_le_zero_of_pos, if_len_lt_one, if_len_eq_zero]
  | scroll i s x y d a =>
    simp [Command.schemaValidB] at hv
    rcases s with _ | s <;> rcases x with _ | x <;> rcases y with _ | y <;>
      rcases d with _ | d <;> rcases a with _ | a <;>
      simp_all [parseCommand, safeParse, encodeCommand, parseByAction, parseScroll,
        lookupField, optJField, vReqStr, vOptStr1, vOptNum, vOptNumPos, vOptEnum, errs,
        enumLookup_direction, Option.all, if_le_zero_of_pos, if_len_lt_one, if_len_eq_zero]
  | select i s v =>
    simp [Command.schemaValidB] at hv
    rcases v with vs | vs <;>
      simp_all [parseCommand, safeParse, encodeCommand, parseByAction, parseSelect,
        encodeValues, lookupField, optJField, vReqStr, vReqStr1, vValues, strListOf_map,
        errs, if_len_lt_one, if_len_eq_zero]
  | hover i s =>
    simp [Command.schemaValidB] at hv
    simp_all [parseCommand, safeParse, encodeCommand, parseByAction, parseHover,
      lookupField, vReqStr, vReqStr1, errs, if_len_lt_one, if_len_eq_zero]
  | content i s =>
    simp [Command.schemaValidB] at hv
    rcases s with _ | s <;>
      simp_all [parseCommand, safeParse, encodeCommand, parseByAction, parseContent,
        lookupField, optJField, vReqStr, vOptStr1, errs, Option.all,
        if_len_lt_one, if_len_eq_zero]
  | close i =>
    simp [parseCommand, safeParse, encodeCommand, parseByAction, parseClose,
      lookupField, vReqStr, errs]
  | tab_new i =>
    simp [parseCommand, safeParse, encodeCommand, parseByAction, parseTabNew,
      lookupField, vReqStr, errs]
  | tab_list i =>
    simp [parseCommand, safeParse, encodeCommand, parseByAction, parseTabList,
      lookupField, vReqStr, errs]
  | tab_switch i n =>
    simp [Command.schemaValidB] at hv
    simp_all [parseCommand, safeParse, encodeCommand, parseByAction, parseTabSwitch,
      lookupField, vReqStr, vReqNumNonneg, errs, if_lt_zero_of_nonneg]
  | tab_close i n =>
    simp [Command.schemaValidB] at hv
    rcases n with _ | n <;>
      simp_all [parseCommand, safeParse, encodeCommand, parseByAction, parseTabClose,
        lookupField, optJField, vReqStr, vOptNumNonneg, errs, Option.all,
        if_lt_zero_of_nonneg]
  | window_new i vp =>
    simp [Command.schemaValidB] at hv
    rcases vp with _ | ⟨w, ht⟩ <;>
      simp_all [parseCommand, safeParse, encodeCommand, parseByAction, parseWindowNew,
        lookupField, optJField, vReqStr, vOptViewport, vPosField, encodeViewport, errs,
        Option.all, if_le_zero_of_pos]

-- ---------------------------------------------------------------------
-- Substring lemmas
-- ---------------------------------------------------------------------

theorem listHasPrefix_append_self (n rest : List Char) :
    listHasPrefix (n ++ rest) n = true := by
  induction n with
  | nil => simp [listHasPrefix]
  | cons c cs ih => simp [listHasPrefix, ih]

theorem listContainsSeg_of_hasPrefix {h n : List Char} (hp : listHasPrefix h n = true) :
    listContainsSeg h n = true := by
  cases h with
  | nil =>
    cases n with
    | nil => rfl
    | cons d ds => simp [listHasPrefix] at hp
  | cons c rest => simp [listContainsSeg, hp]

theorem listContainsSeg_decomp (pre n suf : List Char) :
    listContainsSeg (pre ++ n ++ suf) n = true := by
  induction pre with
  | nil => exact listContainsSeg_of_hasPrefix (by simpa using listHasPrefix_append_self n suf)
  | cons c p ih =>
    simp [listContainsSeg]
    exact Or.inr (by simpa [List.append_assoc] using ih)

theorem joinComma_decomp {x : String} {l : List String} (h : x ∈ l) :
    ∃ pre suf : List Char, (joinComma l).data = pre ++ x.data ++ suf := by
  induction l with
  | nil => cases h
  | cons a rest ih =>
    rcases List.mem_cons.mp h with rfl | hr
    · cases rest with
      | nil => exact ⟨[], [], by simp [joinComma]⟩
      | cons b r =>
        exact ⟨[], (", " ++ joinComma (b :: r)).data, by
          simp [joinComma, String.data_append]⟩
    · cases rest with
      | nil => cases hr
      | cons b r =>
        obtain ⟨pre, suf, hd⟩ := ih hr
        exact ⟨(a ++ ", ").data ++ pre, suf, by
          simp [joinComma, String.data_append, hd]⟩

/-- Every issue's dotted path is named, followed by a colon, inside the
formatted validation-error string. -/
theorem fmtErrors_names {es : List Issue} {iss : Issue} (h : iss ∈ es) :
    strContains (fmtErrors es) (joinDot iss.path ++ ":") = true := by
  obtain ⟨pre, suf, hd⟩ := joinComma_decomp (List.mem_map_of_mem fmtIssue h)
  have hdata : (fmtErrors es).data
      = ("Validation error: ".data ++ pre) ++ (joinDot iss.path ++ ":").data ++
        ((' ' :: iss.message.data) ++ suf) := by
    have hpiece : (fmtIssue iss).data
        = (joinDot iss.path).data ++ [':', ' '] ++ iss.message.data := by
      simp [fmtIssue, String.data_append]
    simp [fmtErrors, String.data_append, hd, hpiece]
  rw [strContains, hdata]
  exact listContainsSeg_decomp _ _ _

-- ---------------------------------------------------------------------
-- Field validation failures propagate to the whole-schema parse
-- ---------------------------------------------------------------------

theorem vReqStr1_viol (o : Obj) (k : String) {s : String}
    (hl : lookupField o k = some (.str s)) (hs : s = "") :
    vReqStr1 o k = .error [⟨[k], "String must contain at least 1 character(s)"⟩] := by
  subst hs
  simp [vReqStr1, hl]

theorem vOptStr1_viol (o : Obj) (k : String) {s : String}
    (hl : lookupField o k = some (.str s)) (hs : s = "") :
    vOptStr1 o k = .error [⟨[k], "String must contain at least 1 character(s)"⟩] := by
  subst hs
  simp [vOptStr1, hl]

theorem vOptNumPos_viol (o : Obj) (k : String) {n : Int}
    (hl : lookupField o k = some (.num n)) (hn : n ≤ 0) :
    vOptNumPos o k = .error [⟨[k], "Number must be greater than 0"⟩] := by
  simp [vOptNumPos, hl, hn]

theorem vOptNumNonneg_viol (o : Obj) (k : String) {n : Int}
    (hl : lookupField o k = some (.num n)) (hn : n < 0) :
    vOptNumNonneg o k = .error [⟨[k], "Number must be greater than or equal to 0"⟩] := by
  simp [vOptNumNonneg, hl, hn]

theorem vReqNumNonneg_viol (o : Obj) (k : String) {n : Int}
    (hl : lookupField o k = some (.num n)) (hn : n < 0) :
    vReqNumNonneg o k = .error [⟨[k], "Number must be greater than or equal to 0"⟩] := by
  simp [vReqNumNonneg, hl, hn]

theorem vOptQuality_viol (o : Obj) (k : String) {n : Int}
    (hl : lookupField o k = some (.num n)) (hn : n < 0 ∨ 100 < n) :
    ∃ m, vOptQuality o k = .error [⟨[k], m⟩] := by
  rcases hn with hn | hn
  · exact ⟨"Number must be greater than or equal to 0", by simp [vOptQuality, hl, hn]⟩
  · have h0 : ¬ n < 0 := by omega
    exact ⟨"Number must be less than or equal to 100", by simp [vOptQuality, hl, h0, hn]⟩

theorem vOptViewport_field_viol (o vo : Obj) (k : String) {n : Int}
    (hk : k = "width" ∨ k = "height")
    (hvp : lookupField o "viewport" = some (.obj vo))
    (hw : lookupField vo k = some (.num n)) (hn : n ≤ 0) :
    ∃ es0, vOptViewport o "viewport" = .error es0 ∧
      (⟨["viewport", k], "Number must be greater than 0"⟩ : Issue) ∈ es0 := by
  refine ⟨errs (vPosField "viewport" vo "width") ++ errs (vPosField "viewport" vo "height"),
    ?_, ?_⟩
  · rcases hk with rfl | rfl
    · have h1 : vPosField "viewport" vo "width"
          = .error [⟨["viewport", "width"], "Number must be greater than 0"⟩] := by
        simp [vPosField, hw, hn]
      cases h2 : vPosField "viewport" vo "height" <;>
        simp [vOptViewport, hvp, h1, h2]
    · have h1 : vPosField "viewport" vo "height"
          = .error [⟨["viewport", "height"], "Number must be greater than 0"⟩] := by
        simp [vPosField, hw, hn]
      cases h2 : vPosField "viewport" vo "width" <;>
        simp [vOptViewport, hvp, h1, h2]
  · rcases hk with rfl | rfl
    · have h1 : vPosField "viewport" vo "width"
          = .error [⟨["viewport", "width"], "Number must be greater than 0"⟩] := by
        simp [vPosField, hw, hn]
      simp [errs, h1]
    · have h1 : vPosField "viewport" vo "height"
          = .error [⟨["viewport", "height"], "Number must be greater than 0"⟩] := by
        simp [vPosField, hw, hn]
      simp [errs, h1, List.mem_append]

theorem parseNavigate_url_error (o : Obj) (es0 : List Issue)
    (h : vReqStr1 o "url" = .error es0) :
    ∃ es, parseNavigate o = .error es ∧ ∀ iss ∈ es0, iss ∈ es := by
  refine ⟨errs (vReqStr o "id") ++ errs (vReqStr1 o "url") ++
    errs (vOptEnum waitUntilPairs o "waitUntil"), ?_, ?_⟩
  · cases h1 : vReqStr o "id" <;> cases h2 : vOptEnum waitUntilPairs o "waitUntil" <;>
      simp [parseNavigate, h1, h, h2]
  · intro iss him
    simp [errs, h, List.mem_append]
    tauto

theorem parseClick_selector_error (o : Obj) (es0 : List Issue)
    (h : vReqStr1 o "selector" = .error es0) :
    ∃ es, parseClick o = .error es ∧ ∀ iss ∈ es0, iss ∈ es := by
  refine ⟨errs (vReqStr o "id") ++ errs (vReqStr1 o "selector") ++
    errs (vOptEnum buttonPairs o "button") ++ errs (vOptNumPos o "clickCount") ++
    errs (vOptNumNonneg o "delay"), ?_, ?_⟩
  · cases h1 : vReqStr o "id" <;> cases h2 : vOptEnum buttonPairs o "button" <;>
      cases h3 : vOptNumPos o "clickCount" <;> cases h4 : vOptNumNonneg o "delay" <;>
      simp [parseClick, h1, h, h2, h3, h4]
  · intro iss him
    simp [errs, h, List.mem_append]
    tauto

theorem parseClick_clickCount_error (o : Obj) (es0 : List Issue)
    (h : vOptNumPos o "clickCount" = .error es0) :
    ∃ es, parseClick o = .error es ∧ ∀ iss ∈ es0, iss ∈ es := by
  refine ⟨errs (vReqStr o "id") ++ errs (vReqStr1 o "selector") ++
    errs (vOptEnum buttonPairs o "button") ++ errs (vOptNumPos o "clickCount") ++
    errs (vOptNumNonneg o "delay"), ?_, ?_⟩
  · cases h1 : vReqStr o "id" <;> cases h2 : vReqStr1 o "selector" <;>
      cases h3 : vOptEnum buttonPairs o "button" <;> cases h4 : vOptNumNonneg o "delay" <;>
      simp [parseClick, h1, h, h2, h3, h4]
  · intro iss him
    simp [errs, h, List.mem_append]
    tauto

theorem parseClick_delay_error (o : Obj) (es0 : List Issue)
    (h : vOptNumNonneg o "delay" = .error es0) :
    ∃ es, parseClick o = .error es ∧ ∀ iss ∈ es0, iss ∈ es := by
  refine ⟨errs (vReqStr o "id") ++ errs (vReqStr1 o "selector") ++
    errs (vOptEnum buttonPairs o "button") ++ errs (vOptNumPos o "clickCount") ++
    errs (vOptNumNonneg o "delay"), ?_, ?_⟩
  · cases h1 : vReqStr o "id" <;> cases h2 : vReqStr1 o "selector" <;>
      cases h3 : vOptEnum buttonPairs o "button" <;> cases h4 : vOptNumPos o "clickCount" <;>
      simp [parseClick, h1, h, h2, h3, h4]
  · intro iss him
    simp [errs, h, List.mem_append]
    tauto

theorem parseType_selector_error (o : Obj) (es0 : List Issue)
    (h : vReqStr1 o "selector" = .error es0) :
    ∃ es, parseType o = .error es ∧ ∀ iss ∈ es0, iss ∈ es := by
  refine ⟨errs (vReqStr o "id") ++ errs (vReqStr1 o "selector") ++
    errs (vReqStr o "text") ++ errs (vOptNumNonneg o "delay") ++
    errs (vOptBool o "clear"), ?_, ?_⟩
  · cases h1 : vReqStr o "id" <;> cases h2 : vReqStr o "text" <;>
      cases h3 : vOptNumNonneg o "delay" <;> cases h4 : vOptBool o "clear" <;>
      simp [parseType, h1, h, h2, h3, h4]
  · intro iss him
    simp [errs, h, List.mem_append]
    tauto

theorem parseType_text_error (o : Obj) (es0 : List Issue)
    (h : vReqStr o "text" = .error es0) :
    ∃ es, parseType o = .error es ∧ ∀ iss ∈ es0, iss ∈ es := by
  refine ⟨errs (vReqStr o "id") ++ errs (vReqStr1 o "selector") ++
    errs (vReqStr o "text") ++ errs (vOptNumNonneg o "delay") ++
    errs (vOptBool o "clear"), ?_, ?_⟩
  · cases h1 : vReqStr o "id" <;> cases h2 : vReqStr1 o "selector" <;>
      cases h3 : vOptNumNonneg o "delay" <;> cases h4 : vOptBool o "clear" <;>
      simp [parseType, h1, h, h2, h3, h4]
  · intro iss him
    simp [errs, h, List.mem_append]
    tauto

theorem parseType_delay_error (o : Obj) (es0 : List Issue)
    (h : vOptNumNonneg o "delay" = .error es0) :
    ∃ es, parseType o = .error es ∧ ∀ iss ∈ es0, iss ∈ es := by
  refine ⟨errs (vReqStr o "id") ++ errs (vReqStr1 o "selector") ++
    errs (vReqStr o "text") ++ errs (vOptNumNonneg o "delay") ++
    errs (vOptBool o "clear"), ?_, ?_⟩
  · cases h1 : vReqStr o "id" <;> cases h2 : vReqStr1 o "selector" <;>
      cases h3 : vReqStr o "text" <;> cases h4 : vOptBool o "clear" <;>
      simp [parseType, h1, h, h2, h3, h4]
  · intro iss him
    simp [errs, h, List.mem_append]
    tauto

theorem parsePress_key_error (o : Obj) (es0 : List Issue)
    (h : vReqStr1 o "key" = .error es0) :
    ∃ es, parsePress o = .error es ∧ ∀ iss ∈ es0, iss ∈ es := by
  refine ⟨errs (vReqStr o "id") ++ errs (vReqStr1 o "key") ++
    errs (vOptStr1 o "selector"), ?_, ?_⟩
  · cases h1 : vReqStr o "id" <;> cases h2 : vOptStr1 o "selector" <;>
      simp [parsePress, h1, h, h2]
  · intro iss him
    simp [errs, h, List.mem_append]
    tauto

theorem parsePress_selector_error (o : Obj) (es0 : List Issue)
    (h : vOptStr1 o "selector" = .error es0) :
    ∃ es, parsePress o = .error es ∧ ∀ iss ∈ es0, iss ∈ es := by
  refine ⟨errs (vReqStr o "id") ++ errs (vReqStr1 o "key") ++
    errs (vOptStr1 o "selector"), ?_, ?_⟩
  · cases h1 : vReqStr o "id" <;> cases h2 : vReqStr1 o "key" <;>
      simp [parsePress, h1, h, h2]
  · intro iss him
    simp [errs, h, List.mem_append]
    tauto

set_option maxHeartbeats 1000000 in
theorem parseScreenshot_selector_error (o : Obj) (es0 : List Issue)
    (h : vOptStr1 o "selector" = .error es0) :
    ∃ es, parseScreenshot o = .error es ∧ ∀ iss ∈ es0, iss ∈ es := by
  refine ⟨errs (vReqStr o "id") ++ errs (vOptStr o "path") ++ errs (vOptBool o "fullPage") ++
    errs (vOptStr1 o "selector") ++ errs (vOptEnum formatPairs o "format") ++
    errs (vOptQuality o "quality"), ?_, ?_⟩
  · cases h1 : vReqStr o "id" <;> cases h2 : vOptStr o "path" <;>
      cases h3 : vOptBool o "fullPage" <;> cases h4 : vOptEnum formatPairs o "format" <;>
      cases h5 : vOptQuality o "quality" <;>
      simp [parseScreenshot, h1, h2, h3, h, h4, h5]
  · intro iss him
    simp [errs, h, List.mem_append]
    tauto

set_option maxHeartbeats 1000000 in
theorem parseScreenshot_quality_error (o : Obj) (es0 : List Issue)
    (h : vOptQuality o "quality" = .error es0) :
    ∃ es, parseScreenshot o = .error es ∧ ∀ iss ∈ es0, iss ∈ es := by
  refine ⟨errs (vReqStr o "id") ++ errs (vOptStr o "path") ++ errs (vOptBool o "fullPage") ++
    errs (vOptStr1 o "selector") ++ errs (vOptEnum formatPairs o "format") ++
    errs (vOptQuality o "quality"), ?_, ?_⟩
  · cases h1 : vReqStr o "id" <;> cases h2 : vOptStr o "path" <;>
      cases h3 : vOptBool o "fullPage" <;> cases h4 : vOptStr1 o "selector" <;>
      cases h5 : vOptEnum formatPairs o "format" <;>
      simp [parseScreenshot, h1, h2, h3, h4, h5, h]
  · intro iss him
    simp [errs, h, List.mem_append]
    tauto

theorem parseEvaluate_script_error (o : Obj) (es0 : List Issue)
    (h : vReqStr1 o "script" = .error es0) :
    ∃ es, parseEvaluate o = .error es ∧ ∀ iss ∈ es0, iss ∈ es := by
  refine ⟨errs (vReqStr o "id") ++ errs (vReqStr1 o "script") ++
    errs (vOptArgs o "args"), ?_, ?_⟩
  · cases h1 : vReqStr o "id" <;> cases h2 : vOptArgs o "args" <;>
      simp [parseEvaluate, h1, h, h2]
  · intro iss him
    simp [errs, h, List.mem_append]
    tauto

theorem parseWait_selector_error (o : Obj) (es0 : List Issue)
    (h : vOptStr1 o "selector" = .error es0) :
    ∃ es, parseWait o = .error es ∧ ∀ iss ∈ es0, iss ∈ es := by
  refine ⟨errs (vReqStr o "id") ++ errs (vOptStr1 o "selector") ++
    errs (vOptNumPos o "timeout") ++ errs (vOptEnum statePairs o "state"), ?_, ?_⟩
  · cases h1 : vReqStr o "id" <;> cases h2 : vOptNumPos o "timeout" <;>
      cases h3 : vOptEnum statePairs o "state" <;>
      simp [parseWait, h1, h, h2, h3]
  · intro iss him
    simp [errs, h, List.mem_append]
    tauto

theorem parseWait_timeout_error (o : Obj) (es0 : List Issue)
    (h : vOptNumPos o "timeout" = .error es0) :
    ∃ es, parseWait o = .error es ∧ ∀ iss ∈ es0, iss ∈ es := by
  refine ⟨errs (vReqStr o "id") ++ errs (vOptStr1 o "selector") ++
    errs (vOptNumPos o "timeout") ++ errs (vOptEnum statePairs o "state"), ?_, ?_⟩
  · cases h1 : vReqStr o "id" <;> cases h2 : vOptStr1 o "selector" <;>
      cases h3 : vOptEnum statePairs o "state" <;>
      simp [parseWait, h1, h2, h, h3]
  · intro iss him
    simp [errs, h, List.mem_append]
    tauto

set_option maxHeartbeats 1000000 in
theorem parseScroll_selector_error (o : Obj) (es0 : List Issue)
    (h : vOptStr1 o "selector" = .error es0) :
    ∃ es, parseScroll o = .error es ∧ ∀ iss ∈ es0, iss ∈ es := by
  refine ⟨errs (vReqStr o "id") ++ errs (vOptStr1 o "selector") ++ errs (vOptNum o "x") ++
    errs (vOptNum o "y") ++ errs (vOptEnum directionPairs o "direction") ++
    errs (vOptNumPos o "amount"), ?_, ?_⟩
  · cases h1 : vReqStr o "id" <;> cases h2 : vOptNum o "x" <;> cases h3 : vOptNum o "y" <;>
      cases h4 : vOptEnum directionPairs o "direction" <;>
      cases h5 : vOptNumPos o "amount" <;>
      simp [parseScroll, h1, h, h2, h3, h4, h5]
  · intro iss him
    simp [errs, h, List.mem_append]
    tauto

set_option maxHeartbeats 1000000 in
theorem parseScroll_amount_error (o : Obj) (es0 : List Issue)
    (h : vOptNumPos o "amount" = .error es0) :
    ∃ es, parseScroll o = .error es ∧ ∀ iss ∈ es0, iss ∈ es := by
  refine ⟨errs (vReqStr o "id") ++ errs (vOptStr1 o "selector") ++ errs (vOptNum o "x") ++
    errs (vOptNum o "y") ++ errs (vOptEnum directionPairs o "direction") ++
    errs (vOptNumPos o "amount"), ?_, ?_⟩
  · cases h1 : vReqStr o "id" <;> cases h2 : vOptStr1 o "selector" <;>
      cases h3 : vOptNum o "x" <;> cases h4 : vOptNum o "y" <;>
      cases h5 : vOptEnum directionPairs o "direction" <;>
      simp [parseScroll, h1, h2, h3, h4, h5, h]
  · intro iss him
    simp [errs, h, List.mem_append]
    tauto

theorem parseSelect_selector_error (o : Obj) (es0 : List Issue)
    (h : vReqStr1 o "selector" = .error es0) :
    ∃ es, parseSelect o = .error es ∧ ∀ iss ∈ es0, iss ∈ es := by
  refine ⟨errs (vReqStr o "id") ++ errs (vReqStr1 o "selector") ++
    errs (vValues o "values"), ?_, ?_⟩
  · cases h1 : vReqStr o "id" <;> cases h2 : vValues o "values" <;>
      simp [parseSelect, h1, h, h2]
  · intro iss him
    simp [errs, h, List.mem_append]
    tauto

theorem parseSelect_values_error (o : Obj) (es0 : List Issue)
    (h : vValues o "values" = .error es0) :
    ∃ es, parseSelect o = .error es ∧ ∀ iss ∈ es0, iss ∈ es := by
  refine ⟨errs (vReqStr o "id") ++ errs (vReqStr1 o "selector") ++
    errs (vValues o "values"), ?_, ?_⟩
  · cases h1 : vReqStr o "id" <;> cases h2 : vReqStr1 o "selector" <;>
      simp [parseSelect, h1, h2, h]
  · intro iss him
    simp [errs, h, List.mem_append]
    tauto

theorem parseHover_selector_error (o : Obj) (es0 : List Issue)
    (h : vReqStr1 o "selector" = .error es0) :
    ∃ es, parseHover o = .error es ∧ ∀ iss ∈ es0, iss ∈ es := by
  refine ⟨errs (vReqStr o "id") ++ errs (vReqStr1 o "selector"), ?_, ?_⟩
  · cases h1 : vReqStr o "id" <;> simp [parseHover, h1, h]
  · intro iss him
    simp [errs, h, List.mem_append]
    tauto

theorem parseContent_selector_error (o : Obj) (es0 : List Issue)
    (h : vOptStr1 o "selector" = .error es0) :
    ∃ es, parseContent o = .error es ∧ ∀ iss ∈ es0, iss ∈ es := by
  refine ⟨errs (vReqStr o "id") ++ errs (vOptStr1 o "selector"), ?_, ?_⟩
  · cases h1 : vReqStr o "id" <;> simp [parseContent, h1, h]
  · intro iss him
    simp [errs, h, List.mem_append]
    tauto

theorem parseTabSwitch_index_error (o : Obj) (es0 : List Issue)
    (h : vReqNumNonneg o "index" = .error es0) :
    ∃ es, parseTabSwitch o = .error es ∧ ∀ iss ∈ es0, iss ∈ es := by
  refine ⟨errs (vReqStr o "id") ++ errs (vReqNumNonneg o "index"), ?_, ?_⟩
  · cases h1 : vReqStr o "id" <;> simp [parseTabSwitch, h1, h]
  · intro iss him
    simp [errs, h, List.mem_append]
    tauto

theorem parseTabClose_index_error (o : Obj) (es0 : List Issue)
    (h : vOptNumNonneg o "index" = .error es0) :
    ∃ es, parseTabClose o = .error es ∧ ∀ iss ∈ es0, iss ∈ es := by
  refine ⟨errs (vReqStr o "id") ++ errs (vOptNumNonneg o "index"), ?_, ?_⟩
  · cases h1 : vReqStr o "id" <;> simp [parseTabClose, h1, h]
  · intro iss him
    simp [errs, h, List.mem_append]
    tauto

theorem parseLaunch_viewport_error (o : Obj) (es0 : List Issue)
    (h : vOptViewport o "viewport" = .error es0) :
    ∃ es, parseLaunch o = .error es ∧ ∀ iss ∈ es0, iss ∈ es := by
  refine ⟨errs (vReqStr o "id") ++ errs (vOptBool o "headless") ++
    errs (vOptViewport o "viewport") ++ errs (vOptEnum browserPairs o "browser"), ?_, ?_⟩
  · cases h1 : vReqStr o "id" <;> cases h2 : vOptBool o "headless" <;>
      cases h3 : vOptEnum browserPairs o "browser" <;>
      simp [parseLaunch, h1, h2, h, h3]
  · intro iss him
    simp [errs, h, List.mem_append]
    tauto

theorem parseWindowNew_viewport_error (o : Obj) (es0 : List Issue)
    (h : vOptViewport o "viewport" = .error es0) :
    ∃ es, parseWindowNew o = .error es ∧ ∀ iss ∈ es0, iss ∈ es := by
  refine ⟨errs (vReqStr o "id") ++ errs (vOptViewport o "viewport"), ?_, ?_⟩
  · cases h1 : vReqStr o "id" <;> simp [parseWindowNew, h1, h]
  · intro iss him
    simp [errs, h, List.mem_append]
    tauto

/-- A failing schema parse surfaces through `parseCommand` as a failure
whose message names the given issue path. -/
theorem parse_failure_naming (o : Obj) (path : List String) {es : List Issue} {m : String}
    (hsp : safeParse (.obj o) = .error es) (hm : (⟨path, m⟩ : Issue) ∈ es) :
    ∃ msg i, parseCommand (some (.obj o)) = .failure msg i ∧
      strContains msg (joinDot path ++ ":") = true := by
  refine ⟨fmtErrors es, extractId (.obj o), by simp [parseCommand, hsp], ?_⟩
  simpa using fmtErrors_names hm

/-- Special case of `parse_failure_naming` for a top-level field. -/
theorem parse_failure_naming1 (o : Obj) (k : String) {es : List Issue} {m : String}
    (hsp : safeParse (.obj o) = .error es) (hm : (⟨[k], m⟩ : Issue) ∈ es) :
    ∃ msg i, parseCommand (some (.obj o)) = .failure msg i ∧
      strContains msg (k ++ ":") = true := by
  simpa [joinDot] using parse_failure_naming o [k] hsp hm

-- ---------------------------------------------------------------------
-- Monad lemmas and handler success shape
-- ---------------------------------------------------------------------

theorem mbind_ok {α β} {x : M α} {f : α → M β} {st tr b st2 tr2}
    (h : mbind x f st tr = .ok (b, st2, tr2)) :
    ∃ a st1 tr1, x st tr = .ok (a, st1, tr1) ∧ f a st1 tr1 = .ok (b, st2, tr2) := by
  unfold mbind at h
  cases hx : x st tr with
  | error e => rw [hx] at h; cases h
  | ok v =>
    obtain ⟨a, st1, tr1⟩ := v
    rw [hx] at h
    exact ⟨a, st1, tr1, rfl, h⟩

theorem mret_ok_fst {α} {a r : α} {st st2 : BrowserManager} {tr tr2 : Trace}
    (h : mret a st tr = .ok (r, st2, tr2)) : r = a := by
  simp [mret] at h
  exact h.1.symm

/-- Every handler that returns normally returns a success response built
with the command's own `id`. -/
theorem runCommand_ok_success (c : Command) (st st2 : BrowserManager) (tr tr2 : Trace)
    (r : Response) (h : runCommand c st tr = .ok (r, st2, tr2)) :
    ∃ d, r = successResponse c.id d := by
  cases c with
  | launch i hl vp b =>
    simp only [runCommand, handleLaunch, M.bind_eq, M.pure_eq, Command.id] at h ⊢
    rcases mbind_ok h with ⟨_, _, _, _, h⟩
    exact ⟨_, mret_ok_fst h⟩
  | navigate i u w =>
    simp only [runCommand, handleNavigate, M.bind_eq, M.pure_eq, Command.id] at h ⊢
    rcases mbind_ok h with ⟨_, _, _, _, h⟩
    rcases mbind_ok h with ⟨_, _, _, _, h⟩
    rcases mbind_ok h with ⟨_, _, _, _, h⟩
    rcases mbind_ok h with ⟨_, _, _, _, h⟩
    exact ⟨_, mret_ok_fst h⟩
  | click i s b cc d =>
    simp only [runCommand, handleClick, M.bind_eq, M.pure_eq, Command.id] at h ⊢
    rcases mbind_ok h with ⟨_, _, _, _, h⟩
    rcases mbind_ok h with ⟨_, _, _, _, h⟩
    exact ⟨_, mret_ok_fst h⟩
  | type i s t d cl =>
    simp only [runCommand, handleType, M.bind_eq, M.pure_eq, Command.id] at h ⊢
    rcases mbind_ok h with ⟨_, _, _, _, h⟩
    cases hcl : cl.getD false <;> simp [hcl] at h
    all_goals
      rcases mbind_ok h with ⟨_, _, _, _, h⟩
      rcases mbind_ok h with ⟨_, _, _, _, h⟩
      exact ⟨_, mret_ok_fst h⟩
  | press i k s =>
    simp only [runCommand, handlePress, M.bind_eq, M.pure_eq, Command.id] at h ⊢
    rcases mbind_ok h with ⟨_, _, _, _, h⟩
    cases hts : truthyStr s <;> simp only [hts] at h
    all_goals
      rcases mbind_ok h with ⟨_, _, _, _, h⟩
      exact ⟨_, mret_ok_fst h⟩
  | screenshot i p f s fo q =>
    simp only [runCommand, handleScreenshot, M.bind_eq, M.pure_eq, Command.id] at h ⊢
    rcases mbind_ok h with ⟨_, st1, tr1, _, h⟩
    cases htp : truthyStr p with
    | some pp =>
      simp only [htp] at h
      rcases mbind_ok h with ⟨_, _, _, _, h⟩
      exact ⟨_, mret_ok_fst h⟩
    | none =>
      simp only [htp] at h
      rcases mbind_ok h with ⟨_, _, _, _, h⟩
      exact ⟨_, mret_ok_fst h⟩
  | snapshot i =>
    simp only [runCommand, handleSnapshot, M.bind_eq, M.pure_eq, Command.id] at h ⊢
    rcases mbind_ok h with ⟨_, _, _, _, h⟩
    rcases mbind_ok h with ⟨_, _, _, _, h⟩
    exact ⟨_, mret_ok_fst h⟩
  | evaluate i s a =>
    simp only [runCommand, handleEvaluate, M.bind_eq, M.pure_eq, Command.id] at h ⊢
    rcases mbind_ok h with ⟨_, _, _, _, h⟩
    rcases mbind_ok h with ⟨_, _, _, _, h⟩
    exact ⟨_, mret_ok_fst h⟩
  | wait i s t ws =>
    simp only [runCommand, handleWait, M.bind_eq, M.pure_eq, Command.id] at h ⊢
    rcases mbind_ok h with ⟨_, _, _, _, h⟩
    cases hts : truthyStr s <;> simp only [hts] at h
    · cases htn : truthyNum t <;> simp only [htn] at h
      all_goals
        rcases mbind_ok h with ⟨_, _, _, _, h⟩
        exact ⟨_, mret_ok_fst h⟩
    · rcases mbind_ok h with ⟨_, _, _, _, h⟩
      exact ⟨_, mret_ok_fst h⟩
  | scroll i s x y d a =>
    simp only [runCommand, handleScroll, M.bind_eq, M.pure_eq, Command.id] at h ⊢
    rcases mbind_ok h with ⟨_, _, _, _, h⟩
    cases hts : truthyStr s <;> simp only [hts] at h
    · rcases d with _ | dd
      · rcases mbind_ok h with ⟨_, _, _, _, h⟩
        exact ⟨_, mret_ok_fst h⟩
      · cases dd
        all_goals
          rcases mbind_ok h with ⟨_, _, _, _, h⟩
          exact ⟨_, mret_ok_fst h⟩
    · rcases mbind_ok h with ⟨_, _, _, _, h⟩
      by_cases hxy : x ≠ none ∨ y ≠ none
      · rw [if_pos hxy] at h
        rcases mbind_ok h with ⟨_, _, _, _, h⟩
        exact ⟨_, mret_ok_fst h⟩
      · rw [if_neg hxy] at h
        rcases mbind_ok h with ⟨_, _, _, _, h⟩
        exact ⟨_, mret_ok_fst h⟩
  | select i s v =>
    simp only [runCommand, handleSelect, M.bind_eq, M.pure_eq, Command.id] at h ⊢
    rcases mbind_ok h with ⟨_, _, _, _, h⟩
    rcases mbind_ok h with ⟨_, _, _, _, h⟩
    exact ⟨_, mret_ok_fst h⟩
  | hover i s =>
    simp only [runCommand, handleHover, M.bind_eq, M.pure_eq, Command.id] at h ⊢
    rcases mbind_ok h with ⟨_, _, _, _, h⟩
    rcases mbind_ok h with ⟨_, _, _, _, h⟩
    exact ⟨_, mret_ok_fst h⟩
  | content i s =>
    simp only [runCommand, handleContent, M.bind_eq, M.pure_eq, Command.id] at h ⊢
    rcases mbind_ok h with ⟨_, _, _, _, h⟩
    cases hts : truthyStr s <;> simp only [hts] at h
    all_goals
      rcases mbind_ok h with ⟨_, _, _, _, h⟩
      exact ⟨_, mret_ok_fst h⟩
  | close i =>
    simp only [runCommand, handleClose, M.bind_eq, M.pure_eq, Command.id] at h ⊢
    rcases mbind_ok h with ⟨_, _, _, _, h⟩
    exact ⟨_, mret_ok_fst h⟩
  | tab_new i =>
    simp only [runCommand, handleTabNew, M.bind_eq, M.pure_eq, Command.id] at h ⊢
    rcases mbind_ok h with ⟨_, _, _, _, h⟩
    exact ⟨_, mret_ok_fst h⟩
  | tab_list i =>
    simp only [runCommand, handleTabList, M.bind_eq, M.pure_eq, Command.id] at h ⊢
    rcases mbind_ok h with ⟨_, _, _, _, h⟩
    rcases mbind_ok h with ⟨_, _, _, _, h⟩
    exact ⟨_, mret_ok_fst h⟩
  | tab_switch i n =>
    simp only [runCommand, handleTabSwitch, M.bind_eq, M.pure_eq, Command.id] at h ⊢
    rcases mbind_ok h with ⟨_, _, _, _, h⟩
    rcases mbind_ok h with ⟨_, _, _, _, h⟩
    rcases mbind_ok h with ⟨_, _, _, _, h⟩
    exact ⟨_, mret_ok_fst h⟩
  | tab_close i n =>
    simp only [runCommand, handleTabClose, M.bind_eq, M.pure_eq, Command.id] at h ⊢
    rcases mbind_ok h with ⟨_, _, _, _, h⟩
    exact ⟨_, mret_ok_fst h⟩
  | window_new i vp =>
    simp only [runCommand, handleWindowNew, M.bind_eq, M.pure_eq, Command.id] at h ⊢
    rcases mbind_ok h with ⟨_, _, _, _, h⟩
    exact ⟨_, mret_ok_fst h⟩

-- ---------------------------------------------------------------------
-- Claim theorems
-- ---------------------------------------------------------------------

/-- C1: for every command and every capability state, `executeCommand`
returns a `Response` (total function) whose `id` equals the command's `id`;
any fault thrown by a capability operation is converted by the try/catch
into `errorResponse(command.id, message)` carrying the thrown message; and
a failed response is always exactly an error response with the original id
and a descriptive error string. -/
theorem C1_executeCommand_converts_faults (c : Command) (st : BrowserManager) :
    (executeCommand c st).1.id = c.id ∧
    (∀ m, runCommand c st [] = .error m →
      executeCommand c st = (errorResponse c.id m, st, [])) ∧
    ((executeCommand c st).1.success = false →
      ∃ m, (executeCommand c st).1 = errorResponse c.id m) := by
  cases hr : runCommand c st [] with
  | error m =>
    refine ⟨?_, ?_, ?_⟩
    · simp [executeCommand, hr, errorResponse]
    · intro m2 hm2
      injection hm2 with hme
      subst hme
      simp [executeCommand, hr]
    · intro _
      exact ⟨m, by simp [executeCommand, hr]⟩
  | ok v =>
    obtain ⟨r, st2, tr2⟩ := v
    obtain ⟨d, rfl⟩ := runCommand_ok_success c st st2 [] tr2 r hr
    refine ⟨?_, ?_, ?_⟩
    · simp [executeCommand, hr, successResponse]
    · intro m2 hm2
      cases hm2
    · intro hs
      simp [executeCommand, hr, successResponse] at hs

/-- C1 witness: a concrete faulting capability run: the click handler's
fault "boom" is converted into `errorResponse "c1" "boom"`. -/
theorem C1_witness :
    runCommand (.click "c1" "#b" none none none) boomBM [] = .error "boom" ∧
    (executeCommand (.click "c1" "#b" none none none) boomBM).1
      = errorResponse "c1" "boom" := by
  refine ⟨rfl, ?_⟩
  have h := (C1_executeCommand_converts_faults (.click "c1" "#b" none none none)
    boomBM).2.1 "boom" rfl
  rw [h]
  rfl

/-- C2 counterexample: `navigate` with `url = ""` is a member of the
`Command` union carrying exactly the fields its schema defines, yet
validating its serialization yields a failure (the `min(1)` constraint),
not the command: the round-trip fails for it as the claim is stated. -/
theorem C2_counterexample :
    parseCommand (some (encodeCommand (.navigate "c2" "" none)))
      ≠ .success (.navigate "c2" "" none) := by
  have h : parseCommand (some (encodeCommand (.navigate "c2" "" none)))
      = .failure "Validation error: url: String must contain at least 1 character(s)"
          (some "c2") := by
    simp [parseCommand, safeParse, parseByAction, parseNavigate, encodeCommand, optJField,
      lookupField, vReqStr, vReqStr1, vOptEnum, errs, fmtErrors, joinComma, fmtIssue,
      joinDot, extractId, jsToString]
  rw [h]
  intro hc
  exact ParseResult.noConfusion hc

/-- C2 (amended): for every `Command` value whose fields also satisfy the
schemas' value constraints (non-empty strings where `min(1)` applies,
positive / non-negative / range-bounded numbers), decoding its JSON
serialization round-trips: `parseCommand (JSON.stringify command)` returns
success with the original command. -/
theorem C2_roundtrip_of_valid (c : Command) (hv : c.schemaValidB = true) :
    parseCommand (some (encodeCommand c)) = .success c :=
  parseCommand_encode_of_schemaValid c hv

/-- C2 witness: a concrete schema-valid command round-trips. -/
theorem C2_witness :
    Command.schemaValidB (.click "w2" "#submit" (some .left) (some 2) (some 5)) = true ∧
    parseCommand (some (encodeCommand (.click "w2" "#submit" (some .left) (some 2) (some 5))))
      = .success (.click "w2" "#submit" (some .left) (some 2) (some 5)) :=
  ⟨rfl, C2_roundtrip_of_valid _ rfl⟩

/-- C3: for every input object whose action tag is in the catalogue,
`parseCommand` returns a failure whose error message names the offending
field (so no command value is produced and nothing reaches
`executeCommand`) whenever (1) a required field of that tag is omitted,
(2) any value-constrained field of that tag is present but violates its
constraint (`min(1)`, `positive`, `nonnegative`, `min(0).max(100)` — the
complete catalogue in `constrainedFieldTriples`), or (3) a nested
`viewport` dimension is non-positive; the cited Scenario D (`click` with
`selector: ""`) is also proved at its concrete input. -/
theorem C3_invalid_fields_rejected :
    (∀ a k : String, ∀ o : Obj, (a, k) ∈ requiredFieldPairs →
      lookupField o "action" = some (.str a) → lookupField o k = none →
      ∃ msg i, parseCommand (some (.obj o)) = .failure msg i ∧
        strContains msg (k ++ ":") = true) ∧
    (∀ a k : String, ∀ c : ValueRule, ∀ o : Obj, ∀ v : JVal,
      (a, k, c) ∈ constrainedFieldTriples →
      lookupField o "action" = some (.str a) → lookupField o k = some v →
      violatesB c v = true →
      ∃ msg i, parseCommand (some (.obj o)) = .failure msg i ∧
        strContains msg (k ++ ":") = true) ∧
    (∀ a ∈ (["launch", "window_new"] : List String),
      ∀ k ∈ (["width", "height"] : List String), ∀ o vo : Obj, ∀ n : Int,
      lookupField o "action" = some (.str a) →
      lookupField o "viewport" = some (.obj vo) →
      lookupField vo k = some (.num n) → n ≤ 0 →
      ∃ msg i, parseCommand (some (.obj o)) = .failure msg i ∧
        strContains msg ("viewport." ++ k ++ ":") = true) ∧
    (∃ msg, parseCommand (some (.obj [("id", .str "d1"), ("action", .str "click"),
        ("selector", .str "")])) = .failure msg (some "d1") ∧
      strContains msg ("selector" ++ ":") = true) := by
  refine ⟨?_, ?_, ?_, ?_⟩
  · intro a k o hmem ha hk
    simp only [requiredFieldPairs, List.mem_cons, List.mem_singleton,
      List.not_mem_nil, or_false] at hmem
    rcases hmem with hp0 | hp0 | hp0 | hp0 | hp0 | hp0 | hp0 | hp0 | hp0 | hp0
    · cases hp0
      have hu : vReqStr1 o "url" = .error [⟨["url"], "Required"⟩] := by simp [vReqStr1, hk]
      obtain ⟨es, hes, hsub⟩ := parseNavigate_url_error o _ hu
      exact parse_failure_naming1 o "url" (by simp [safeParse, ha, parseByAction, hes])
        (hsub _ (List.mem_singleton_self _))
    · cases hp0
      have hu : vReqStr1 o "selector" = .error [⟨["selector"], "Required"⟩] := by
        simp [vReqStr1, hk]
      obtain ⟨es, hes, hsub⟩ := parseClick_selector_error o _ hu
      exact parse_failure_naming1 o "selector" (by simp [safeParse, ha, parseByAction, hes])
        (hsub _ (List.mem_singleton_self _))
    · cases hp0
      have hu : vReqStr1 o "selector" = .error [⟨["selector"], "Required"⟩] := by
        simp [vReqStr1, hk]
      obtain ⟨es, hes, hsub⟩ := parseType_selector_error o _ hu
      exact parse_failure_naming1 o "selector" (by simp [safeParse, ha, parseByAction, hes])
        (hsub _ (List.mem_singleton_self _))
    · cases hp0
      have hu : vReqStr o "text" = .error [⟨["text"], "Required"⟩] := by simp [vReqStr, hk]
      obtain ⟨es, hes, hsub⟩ := parseType_text_error o _ hu
      exact parse_failure_naming1 o "text" (by simp [safeParse, ha, parseByAction, hes])
        (hsub _ (List.mem_singleton_self _))
    · cases hp0
      have hu : vReqStr1 o "key" = .error [⟨["key"], "Required"⟩] := by simp [vReqStr1, hk]
      obtain ⟨es, hes, hsub⟩ := parsePress_key_error o _ hu
      exact parse_failure_naming1 o "key" (by simp [safeParse, ha, parseByAction, hes])
        (hsub _ (List.mem_singleton_self _))
    · cases hp0
      have hu : vReqStr1 o "script" = .error [⟨["script"], "Required"⟩] := by
        simp [vReqStr1, hk]
      obtain ⟨es, hes, hsub⟩ := parseEvaluate_script_error o _ hu
      exact parse_failure_naming1 o "script" (by simp [safeParse, ha, parseByAction, hes])
        (hsub _ (List.mem_singleton_self _))
    · cases hp0
      have hu : vReqStr1 o "selector" = .error [⟨["selector"], "Required"⟩] := by
        simp [vReqStr1, hk]
      obtain ⟨es, hes, hsub⟩ := parseSelect_selector_error o _ hu
      exact parse_failure_naming1 o "selector" (by simp [safeParse, ha, parseByAction, hes])
        (hsub _ (List.mem_singleton_self _))
    · cases hp0
      have hu : vValues o "values" = .error [⟨["values"], "Required"⟩] := by
        simp [vValues, hk]
      obtain ⟨es, hes, hsub⟩ := parseSelect_values_error o _ hu
      exact parse_failure_naming1 o "values" (by simp [safeParse, ha, parseByAction, hes])
        (hsub _ (List.mem_singleton_self _))
    · cases hp0
      have hu : vReqStr1 o "selector" = .error [⟨["selector"], "Required"⟩] := by
        simp [vReqStr1, hk]
      obtain ⟨es, hes, hsub⟩ := parseHover_selector_error o _ hu
      exact parse_failure_naming1 o "selector" (by simp [safeParse, ha, parseByAction, hes])
        (hsub _ (List.mem_singleton_self _))
    · cases hp0
      have hu : vReqNumNonneg o "index" = .error [⟨["index"], "Required"⟩] := by
        simp [vReqNumNonneg, hk]
      obtain ⟨es, hes, hsub⟩ := parseTabSwitch_index_error o _ hu
      exact parse_failure_naming1 o "index" (by simp [safeParse, ha, parseByAction, hes])
        (hsub _ (List.mem_singleton_self _))
  · intro a k c o v htrip ha hl hviol
    simp only [constrainedFieldTriples, List.mem_cons, List.mem_singleton,
      List.not_mem_nil, or_false] at htrip
    rcases htrip with ht | htrip
    · cases ht
      rcases v with _ | b | nn | sv | el | fl <;> simp [violatesB] at hviol
      obtain ⟨es, hes, hsub⟩ := parseNavigate_url_error o _ (vReqStr1_viol o "url" hl hviol)
      exact parse_failure_naming1 o "url" (by simp [safeParse, ha, parseByAction, hes])
        (hsub _ (List.mem_singleton_self _))
    rcases htrip with ht | htrip
    · cases ht
      rcases v with _ | b | nn | sv | el | fl <;> simp [violatesB] at hviol
      obtain ⟨es, hes, hsub⟩ :=
        parseClick_selector_error o _ (vReqStr1_viol o "selector" hl hviol)
      exact parse_failure_naming1 o "selector" (by simp [safeParse, ha, parseByAction, hes])
        (hsub _ (List.mem_singleton_self _))
    rcases htrip with ht | htrip
    · cases ht
      rcases v with _ | b | nn | sv | el | fl <;> simp [violatesB] at hviol
      obtain ⟨es, hes, hsub⟩ :=
        parseClick_clickCount_error o _ (vOptNumPos_viol o "clickCount" hl hviol)
      exact parse_failure_naming1 o "clickCount" (by simp [safeParse, ha, parseByAction, hes])
        (hsub _ (List.mem_singleton_self _))
    rcases htrip with ht | htrip
    · cases ht
      rcases v with _ | b | nn | sv | el | fl <;> simp [violatesB] at hviol
      obtain ⟨es, hes, hsub⟩ :=
        parseClick_delay_error o _ (vOptNumNonneg_viol o "delay" hl hviol)
      exact parse_failure_naming1 o "delay" (by simp [safeParse, ha, parseByAction, hes])
        (hsub _ (List.mem_singleton_self _))
    rcases htrip with ht | htrip
    · cases ht
      rcases v with _ | b | nn | sv | el | fl <;> simp [violatesB] at hviol
      obtain ⟨es, hes, hsub⟩ :=
        parseType_selector_error o _ (vReqStr1_viol o "selector" hl hviol)
      exact parse_failure_naming1 o "selector" (by simp [safeParse, ha, parseByAction, hes])
        (hsub _ (List.mem_singleton_self _))
    rcases htrip with ht | htrip
    · cases ht
      rcases v with _ | b | nn | sv | el | fl <;> simp [violatesB] at hviol
      obtain ⟨es, hes, hsub⟩ :=
        parseType_delay_error o _ (vOptNumNonneg_viol o "delay" hl hviol)
      exact parse_failure_naming1 o "delay" (by simp [safeParse, ha, parseByAction, hes])
        (hsub _ (List.mem_singleton_self _))
    rcases htrip with ht | htrip
    · cases ht
      rcases v with _ | b | nn | sv | el | fl <;> simp [violatesB] at hviol
      obtain ⟨es, hes, hsub⟩ := parsePress_key_error o _ (vReqStr1_viol o "key" hl hviol)
      exact parse_failure_naming1 o "key" (by simp [safeParse, ha, parseByAction, hes])
        (hsub _ (List.mem_singleton_self _))
    rcases htrip with ht | htrip
    · cases ht
      rcases v with _ | b | nn | sv | el | fl <;> simp [violatesB] at hviol
      obtain ⟨es, hes, hsub⟩ :=
        parsePress_selector_error o _ (vOptStr1_viol o "selector" hl hviol)
      exact parse_failure_naming1 o "selector" (by simp [safeParse, ha, parseByAction, hes])
        (hsub _ (List.mem_singleton_self _))
    rcases htrip with ht | htrip
    · cases ht
      rcases v with _ | b | nn | sv | el | fl <;> simp [violatesB] at hviol
      obtain ⟨es, hes, hsub⟩ :=
        parseScreenshot_selector_error o _ (vOptStr1_viol o "selector" hl hviol)
      exact parse_failure_naming1 o "selector" (by simp [safeParse, ha, parseByAction, hes])
        (hsub _ (List.mem_singleton_self _))
    rcases htrip with ht | htrip
    · cases ht
      rcases v with _ | b | nn | sv | el | fl <;> simp [violatesB] at hviol
      obtain ⟨m, hq⟩ := vOptQuality_viol o "quality" hl hviol
      obtain ⟨es, hes, hsub⟩ := parseScreenshot_quality_error o _ hq
      exact parse_failure_naming1 o "quality" (by simp [safeParse, ha, parseByAction, hes])
        (hsub _ (List.mem_singleton_self _))
    rcases htrip with ht | htrip
    · cases ht
      rcases v with _ | b | nn | sv | el | fl <;> simp [violatesB] at hviol
      obtain ⟨es, hes, hsub⟩ :=
        parseEvaluate_script_error o _ (vReqStr1_viol o "script" hl hviol)
      exact parse_failure_naming1 o "script" (by simp [safeParse, ha, parseByAction, hes])
        (hsub _ (List.mem_singleton_self _))
    rcases htrip with ht | htrip
    · cases ht
      rcases v with _ | b | nn | sv | el | fl <;> simp [violatesB] at hviol
      obtain ⟨es, hes, hsub⟩ :=
        parseWait_selector_error o _ (vOptStr1_viol o "selector" hl hviol)
      exact parse_failure_naming1 o "selector" (by simp [safeParse, ha, parseByAction, hes])
        (hsub _ (List.mem_singleton_self _))
    rcases htrip with ht | htrip
    · cases ht
      rcases v with _ | b | nn | sv | el | fl <;> simp [violatesB] at hviol
      obtain ⟨es, hes, hsub⟩ :=
        parseWait_timeout_error o _ (vOptNumPos_viol o "timeout" hl hviol)
      exact parse_failure_naming1 o "timeout" (by simp [safeParse, ha, parseByAction, hes])
        (hsub _ (List.mem_singleton_self _))
    rcases htrip with ht | htrip
    · cases ht
      rcases v with _ | b | nn | sv | el | fl <;> simp [violatesB] at hviol
      obtain ⟨es, hes, hsub⟩ :=
        parseScroll_selector_error o _ (vOptStr1_viol o "selector" hl hviol)
      exact parse_failure_naming1 o "selector" (by simp [safeParse, ha, parseByAction, hes])
        (hsub _ (List.mem_singleton_self _))
    rcases htrip with ht | htrip
    · cases ht
      rcases v with _ | b | nn | sv | el | fl <;> simp [violatesB] at hviol
      obtain ⟨es, hes, hsub⟩ :=
        parseScroll_amount_error o _ (vOptNumPos_viol o "amount" hl hviol)
      exact parse_failure_naming1 o "amount" (by simp [safeParse, ha, parseByAction, hes])
        (hsub _ (List.mem_singleton_self _))
    rcases htrip with ht | htrip
    · cases ht
      rcases v with _ | b | nn | sv | el | fl <;> simp [violatesB] at hviol
      obtain ⟨es, hes, hsub⟩ :=
        parseSelect_selector_error o _ (vReqStr1_viol o "selector" hl hviol)
      exact parse_failure_naming1 o "selector" (by simp [safeParse, ha, parseByAction, hes])
        (hsub _ (List.mem_singleton_self _))
    rcases htrip with ht | htrip
    · cases ht
      rcases v with _ | b | nn | sv | el | fl <;> simp [violatesB] at hviol
      obtain ⟨es, hes, hsub⟩ :=
        parseHover_selector_error o _ (vReqStr1_viol o "selector" hl hviol)
      exact parse_failure_naming1 o "selector" (by simp [safeParse, ha, parseByAction, hes])
        (hsub _ (List.mem_singleton_self _))
    rcases htrip with ht | htrip
    · cases ht
      rcases v with _ | b | nn | sv | el | fl <;> simp [violatesB] at hviol
      obtain ⟨es, hes, hsub⟩ :=
        parseContent_selector_error o _ (vOptStr1_viol o "selector" hl hviol)
      exact parse_failure_naming1 o "selector" (by simp [safeParse, ha, parseByAction, hes])
        (hsub _ (List.mem_singleton_self _))
    rcases htrip with ht | htrip
    · cases ht
      rcases v with _ | b | nn | sv | el | fl <;> simp [violatesB] at hviol
      obtain ⟨es, hes, hsub⟩ :=
        parseTabSwitch_index_error o _ (vReqNumNonneg_viol o "index" hl hviol)
      exact parse_failure_naming1 o "index" (by simp [safeParse, ha, parseByAction, hes])
        (hsub _ (List.mem_singleton_self _))
    cases htrip
    rcases v with _ | b | nn | sv | el | fl <;> simp [violatesB] at hviol
    obtain ⟨es, hes, hsub⟩ :=
      parseTabClose_index_error o _ (vOptNumNonneg_viol o "index" hl hviol)
    exact parse_failure_naming1 o "index" (by simp [safeParse, ha, parseByAction, hes])
      (hsub _ (List.mem_singleton_self _))
  · intro a ha0 k hk0 o vo n ha hvp hw hn
    obtain ⟨es0, hv0, hm0⟩ := vOptViewport_field_viol o vo k (by simpa using hk0) hvp hw hn
    simp only [List.mem_cons, List.mem_singleton, List.not_mem_nil, or_false] at ha0
    rcases ha0 with rfl | rfl
    · obtain ⟨es, hes, hsub⟩ := parseLaunch_viewport_error o es0 hv0
      have h := parse_failure_naming o ["viewport", k]
        (by simp [safeParse, ha, parseByAction, hes]) (hsub _ hm0)
      simpa [joinDot] using h
    · obtain ⟨es, hes, hsub⟩ := parseWindowNew_viewport_error o es0 hv0
      have h := parse_failure_naming o ["viewport", k]
        (by simp [safeParse, ha, parseByAction, hes]) (hsub _ hm0)
      simpa [joinDot] using h
  · refine ⟨"Validation error: selector: String must contain at least 1 character(s)",
      ?_, by decide⟩
    simp [parseCommand, safeParse, parseByAction, parseClick, lookupField, vReqStr,
      vReqStr1, vOptEnum, vOptNumPos, vOptNumNonneg, errs, fmtErrors, joinComma,
      fmtIssue, joinDot, extractId, jsToString]

/-- C3 witness: a navigate object without `url` is rejected naming `url`,
and a click object with `clickCount: 0` (violating `positive`) is rejected
naming `clickCount`. -/
theorem C3_witness :
    ("navigate", "url") ∈ requiredFieldPairs ∧
    (∃ msg i, parseCommand (some (.obj [("id", .str "w3"), ("action", .str "navigate")]))
      = .failure msg i ∧ strContains msg ("url" ++ ":") = true) ∧
    ("click", "clickCount", ValueRule.positive) ∈ constrainedFieldTriples ∧
    violatesB .positive (.num 0) = true ∧
    (∃ msg i, parseCommand (some (.obj [("id", .str "w3b"), ("action", .str "click"),
        ("selector", .str "#b"), ("clickCount", .num 0)]))
      = .failure msg i ∧ strContains msg ("clickCount" ++ ":") = true) := by
  refine ⟨by simp [requiredFieldPairs], ?_, by simp [constrainedFieldTriples],
    by decide, ?_⟩
  · exact C3_invalid_fields_rejected.1 "navigate" "url"
      [("id", .str "w3"), ("action", .str "navigate")]
      (by simp [requiredFieldPairs]) rfl rfl
  · exact C3_invalid_fields_rejected.2.1 "click" "clickCount" .positive
      [("id", .str "w3b"), ("action", .str "click"), ("selector", .str "#b"),
       ("clickCount", .num 0)] (.num 0)
      (by simp [constrainedFieldTriples]) rfl rfl (by decide)

/-- C4: unparseable input yields a failure with no id ("Invalid JSON");
input parsing to an object that carries an `id` field but fails schema
validation yields a failure carrying `String(id)` and whose error string
names each offending field path. -/
theorem C4_failure_classes :
    parseCommand none = .failure "Invalid JSON" none ∧
    (∀ o : Obj, ∀ v : JVal, ∀ es : List Issue,
      lookupField o "id" = some v →
      safeParse (.obj o) = .error es →
      parseCommand (some (.obj o)) = .failure (fmtErrors es) (some (jsToString v)) ∧
      ∀ iss ∈ es, strContains (fmtErrors es) (joinDot iss.path ++ ":") = true) := by
  refine ⟨rfl, ?_⟩
  intro o v es hid hsp
  refine ⟨by simp [parseCommand, hsp, extractId, hid], ?_⟩
  intro iss hm
  exact fmtErrors_names hm

/-- C4 witness: an object with a numeric id and a missing url fails
validation, carrying `String(7) = "7"` as its id and naming `url`. -/
theorem C4_witness :
    parseCommand (some (.obj [("id", .num 7), ("action", .str "navigate"),
        ("url", .str "https://x")]))
      = .failure (fmtErrors [⟨["id"], "Expected string, received number"⟩])
          (some (jsToString (.num 7))) ∧
    strContains (fmtErrors [⟨["id"], "Expected string, received number"⟩])
      (joinDot ["id"] ++ ":") = true := by
  have h := C4_failure_classes.2 [("id", .num 7), ("action", .str "navigate"),
    ("url", .str "https://x")] (.num 7) [⟨["id"], "Expected string, received number"⟩]
    rfl (by rfl)
  exact ⟨h.1, h.2 ⟨["id"], "Expected string, received number"⟩ (by simp)⟩

/-- C5 (spec-modelled: `browser.ts` is absent from the sources, so
`closeTab` is modelled from spec §6/§8): a `tab_close` command with no
index closes the currently active tab; afterwards the active index is the
lowest remaining index (0 over the re-indexed collection), and the
response's `remaining` equals the tab count before the close minus one. -/
theorem C5_tabClose_no_index (i : String) (st : BrowserManager)
    (h : st.active < st.tabs.length) :
    (executeCommand (.tab_close i none) st).1
      = successResponse i (.tabClosed ⟨st.active, st.tabs.length - 1⟩) ∧
    (executeCommand (.tab_close i none) st).2.1.active = 0 ∧
    (executeCommand (.tab_close i none) st).2.1.tabs = st.tabs.eraseIdx st.active ∧
    (executeCommand (.tab_close i none) st).2.1.tabs.length = st.tabs.length - 1 := by
  have hc : (0 : Int) ≤ (st.active : Int) ∧ ((st.active : Int)).toNat < st.tabs.length :=
    ⟨Int.natCast_nonneg _, by simpa using h⟩
  refine ⟨?_, ?_, ?_, ?_⟩ <;>
    simp [executeCommand, runCommand, handleTabClose, M.bind_eq, M.pure_eq, mbind, mret,
      bmCloseTab, hc.1, hc.2, List.length_eraseIdx, h]

/-- C5 witness: closing without an index on a two-tab state with active
index 1 removes tab 1, reports remaining 1, and activates index 0. -/
theorem C5_witness :
    sampleBM.active < sampleBM.tabs.length ∧
    (executeCommand (.tab_close "w5" none) sampleBM).1
      = successResponse "w5" (.tabClosed ⟨1, 1⟩) ∧
    (executeCommand (.tab_close "w5" none) sampleBM).2.1.active = 0 := by
  have h := C5_tabClose_no_index "w5" sampleBM (by decide)
  exact ⟨by decide, h.1, h.2.1⟩

/-- C6 counterexample: a scroll command with a selector and a direction
(and no explicit x/y) only scrolls the element into view: the trace shows
no scroll-delta operation at all, so the direction's delta is not "applied
within the element" as the claim states. -/
theorem C6_counterexample :
    (executeCommand (.scroll "s1" (some "#c") none none (some .down) (some 50)) sampleBM).2.2
      = [.scrollIntoView "#c"] ∧
    (Effect.elemScrollBy "#c" 0 50) ∉
      (executeCommand (.scroll "s1" (some "#c") none none (some .down) (some 50)) sampleBM).2.2 ∧
    (executeCommand (.scroll "s1" (some "#c") none none (some .down) (some 50)) sampleBM).1
      = successResponse "s1" RData.scrolled := by
  refine ⟨rfl, by decide, rfl⟩

/-- C6 (amended): with no (truthy) selector, a named direction is
translated into a signed pixel delta on the corresponding axis
(down/right positive, up/left negative, default magnitude 100 when amount
is unspecified) and the whole document is scrolled by the resulting deltas
via `window.scrollBy`; with a non-empty selector, the element is scrolled
into view and then only the explicit x/y deltas (when either is present)
are applied within the element — a direction is ignored in that branch. -/
theorem C6_scroll_semantics (i : String) (sel : Option String) (x y : Option Int)
    (d : Option ScrollDir) (a : Option Int) (st : BrowserManager)
    (hf : ∀ e, st.cap.fault e = none) (hp : st.tabs ≠ []) :
    (truthyStr sel = none →
      (executeCommand (.scroll i sel x y d a) st).1 = successResponse i .scrolled ∧
      (d = none → (executeCommand (.scroll i sel x y d a) st).2.2
        = [.evalScript (scrollScript (x.getD 0) (y.getD 0))]) ∧
      (d = some .down → (executeCommand (.scroll i sel x y d a) st).2.2
        = [.evalScript (scrollScript (x.getD 0) (a.getD 100))]) ∧
      (d = some .up → (executeCommand (.scroll i sel x y d a) st).2.2
        = [.evalScript (scrollScript (x.getD 0) (-(a.getD 100)))]) ∧
      (d = some .right → (executeCommand (.scroll i sel x y d a) st).2.2
        = [.evalScript (scrollScript (a.getD 100) (y.getD 0))]) ∧
      (d = some .left → (executeCommand (.scroll i sel x y d a) st).2.2
        = [.evalScript (scrollScript (-(a.getD 100)) (y.getD 0))])) ∧
    (∀ s, truthyStr sel = some s →
      (executeCommand (.scroll i sel x y d a) st).1 = successResponse i .scrolled ∧
      (executeCommand (.scroll i sel x y d a) st).2.2
        = .scrollIntoView s ::
          (if x ≠ none ∨ y ≠ none then [.elemScrollBy s (x.getD 0) (y.getD 0)] else [])) := by
  have hne : st.tabs.isEmpty = false := by
    cases hl : st.tabs with
    | nil => exact absurd hl hp
    | cons th tl => rfl
  constructor
  · intro hts
    rcases d with _ | dd
    · simp [executeCommand, runCommand, handleScroll, M.bind_eq, M.pure_eq, mbind, mret,
        effCall, getPage, hne, hf, hts]
    · cases dd <;>
        simp [executeCommand, runCommand, handleScroll, M.bind_eq, M.pure_eq, mbind, mret,
          effCall, getPage, hne, hf, hts]
  · intro s hts
    by_cases hxy : x ≠ none ∨ y ≠ none
    · simp [executeCommand, runCommand, handleScroll, M.bind_eq, M.pure_eq, mbind, mret,
        effCall, getPage, hne, hf, hts, hxy]
    · simp [executeCommand, runCommand, handleScroll, M.bind_eq, M.pure_eq, mbind, mret,
        effCall, getPage, hne, hf, hts, hxy]

/-- C6 witness: a whole-document scroll down by an explicit 50 emits
`window.scrollBy(0, 50)`; an element scroll with explicit y applies the
delta after scrolling into view. -/
theorem C6_witness :
    ((executeCommand (.scroll "w6" none none none (some .down) (some 50)) sampleBM).2.2
      = [.evalScript (scrollScript 0 50)]) ∧
    ((executeCommand (.scroll "w6b" (some "#c") none (some 70) none none) sampleBM).2.2
      = [.scrollIntoView "#c", .elemScrollBy "#c" 0 70]) := by
  constructor
  · exact ((C6_scroll_semantics "w6" none none none (some .down) (some 50) sampleBM
      (fun e => rfl) (by decide)).1 rfl).2.2.1 rfl
  · have h := ((C6_scroll_semantics "w6b" (some "#c") none (some 70) none none sampleBM
      (fun e => rfl) (by decide)).2 "#c" rfl).2
    simpa using h

/-- C7 counterexample: a screenshot command whose `path` is present but
empty (`""`, which the schema accepts) takes the base64 branch: the
response data is the encoded bytes, not `{path: ""}`, so the branch is not
determined solely by the presence of `path`. -/
theorem C7_counterexample :
    (executeCommand (.screenshot "p1" (some "") none none none none) sampleBM).1
      = successResponse "p1" (.shotB64 "AQID") ∧
    (executeCommand (.screenshot "p1" (some "") none none none none) sampleBM).1
      ≠ successResponse "p1" (.shotPath "") := by
  refine ⟨rfl, ?_⟩
  intro h
  rw [show (executeCommand (.screenshot "p1" (some "") none none none none) sampleBM).1
      = successResponse "p1" (.shotB64 "AQID") from rfl] at h
  simp [successResponse] at h

/-- C7 (amended): the screenshot response shape is decided by the
truthiness of `path` (present and non-empty): with a non-empty path the
engine is asked to write the file and the response data echoes that path;
with no path (or an empty one) the engine returns bytes and the response
data is their base64 encoding. Exactly one of the two shapes is produced. -/
theorem C7_screenshot_branches (i : String) (p : Option String) (f : Option Bool)
    (sel : Option String) (fo : Option ImgFormat) (q : Option Int)
    (st : BrowserManager) (hf : ∀ e, st.cap.fault e = none) (hp : st.tabs ≠ []) :
    (∀ pp, truthyStr p = some pp →
      executeCommand (.screenshot i p f sel fo q) st
        = (successResponse i (.shotPath pp), st,
           [.screenshot (truthyStr sel) (shotOptsOf f fo q) (some pp)])) ∧
    (truthyStr p = none →
      executeCommand (.screenshot i p f sel fo q) st
        = (successResponse i (.shotB64 (base64Encode
            (st.cap.bytesRes (.screenshot (truthyStr sel) (shotOptsOf f fo q) none)))), st,
           [.screenshot (truthyStr sel) (shotOptsOf f fo q) none])) := by
  have hne : st.tabs.isEmpty = false := by
    cases hl : st.tabs with
    | nil => exact absurd hl hp
    | cons th tl => rfl
  constructor
  · intro pp htp
    simp [executeCommand, runCommand, handleScreenshot, M.bind_eq, M.pure_eq, mbind, mret,
      effCall, effCallBytes, getPage, hne, hf, htp]
  · intro htp
    simp [executeCommand, runCommand, handleScreenshot, M.bind_eq, M.pure_eq, mbind, mret,
      effCall, effCallBytes, getPage, hne, hf, htp]

/-- C7 witness: with the fixture engine (bytes `[1,2,3]`), a non-empty path
produces `{path}` and an absent path produces `{base64: "AQID"}`. -/
theorem C7_witness :
    executeCommand (.screenshot "w7" (some "shot.png") none none none none) sampleBM
      = (successResponse "w7" (.shotPath "shot.png"), sampleBM,
         [.screenshot none (shotOptsOf none none none) (some "shot.png")]) ∧
    executeCommand (.screenshot "w7b" none none none none none) sampleBM
      = (successResponse "w7b" (.shotB64 (base64Encode [1, 2, 3])), sampleBM,
         [.screenshot none (shotOptsOf none none none) none]) := by
  constructor
  · exact (C7_screenshot_branches "w7" (some "shot.png") none none none none sampleBM
      (fun e => rfl) (by decide)).1 "shot.png" rfl
  · exact (C7_screenshot_branches "w7b" none none none none none sampleBM
      (fun e => rfl) (by decide)).2 rfl

/-- C8: the CLI's open/navigate command prefixes `https://` onto a URL
argument that does not start with "http", and forwards the URL unchanged
when it already starts with "http". -/
theorem C8_open_url_scheme (i url : String) :
    (strStartsWith url "http" = false →
      buildOpenCommand i url = .navigate i ("https://" ++ url) none) ∧
    (strStartsWith url "http" = true →
      buildOpenCommand i url = .navigate i url none) := by
  constructor
  · intro h
    simp [buildOpenCommand, fullUrlOf, h]
  · intro h
    simp [buildOpenCommand, fullUrlOf, h]

/-- C8 witness: `example.com` is prefixed; `http://a.com` passes through. -/
theorem C8_witness :
    strStartsWith "example.com" "http" = false ∧
    buildOpenCommand "w8" "example.com" = .navigate "w8" "https://example.com" none ∧
    strStartsWith "http://a.com" "http" = true ∧
    buildOpenCommand "w8b" "http://a.com" = .navigate "w8b" "http://a.com" none :=
  ⟨rfl, (C8_open_url_scheme "w8" "example.com").1 rfl, rfl,
   (C8_open_url_scheme "w8b" "http://a.com").2 rfl⟩

/-- C9: the dispatcher normalizes a scalar `values` string into a
one-element array (`selValuesList`) before invoking the capability (the
`selectOption` call receives the wrapped array), and the success response's
`data.selected` is always that array of strings, never the original
scalar. -/
theorem C9_select_normalizes_values (i sel : String) (v : SelectValues)
    (st : BrowserManager) (hf : ∀ e, st.cap.fault e = none) (hp : st.tabs ≠ []) :
    executeCommand (.select i sel v) st
      = (successResponse i (.selected (selValuesList v)), st,
         [.selectOption sel (selValuesList v)]) ∧
    (∀ s : String, selValuesList (.single s) = [s]) := by
  have hne : st.tabs.isEmpty = false := by
    cases hl : st.tabs with
    | nil => exact absurd hl hp
    | cons th tl => rfl
  refine ⟨?_, fun s => rfl⟩
  simp [executeCommand, runCommand, handleSelect, M.bind_eq, M.pure_eq, mbind, mret,
    effCall, getPage, hne, hf]

/-- C9 witness: a scalar "US" is wrapped into `["US"]` both in the engine
call and in the echoed response data. -/
theorem C9_witness :
    executeCommand (.select "w9" "#c" (.single "US")) sampleBM
      = (successResponse "w9" (.selected ["US"]), sampleBM,
         [.selectOption "#c" ["US"]]) :=
  (C9_select_normalizes_values "w9" "#c" (.single "US") sampleBM
    (fun e => rfl) (by decide)).1

/-- C10: a wait command with neither selector nor timeout is schema-valid
and is handled by waiting for the page's load state, returning success with
`{waited: true}`; with both a (non-empty) selector and a (non-zero) timeout
present, the timeout is passed as the bound of `waitForSelector` rather
than used as a fixed sleep (`waitForTimeout` is never called). -/
theorem C10_wait_branches (i : String) (st : BrowserManager)
    (hf : ∀ e, st.cap.fault e = none) (hp : st.tabs ≠ []) :
    parseCommand (some (.obj [("id", .str i), ("action", .str "wait")]))
      = .success (.wait i none none none) ∧
    executeCommand (.wait i none none none) st
      = (successResponse i .waited, st, [.waitForLoadState]) ∧
    (∀ s : String, ∀ t : Int, s ≠ "" → t ≠ 0 → ∀ ws : Option WaitState,
      executeCommand (.wait i (some s) (some t) ws) st
        = (successResponse i .waited, st,
           [.waitForSelector s (ws.getD .visible) (some t)])) := by
  have hne : st.tabs.isEmpty = false := by
    cases hl : st.tabs with
    | nil => exact absurd hl hp
    | cons th tl => rfl
  refine ⟨?_, ?_, ?_⟩
  · simp [parseCommand, safeParse, parseByAction, parseWait, lookupField, vReqStr,
      vOptStr1, vOptNumPos, vOptEnum, errs]
  · simp [executeCommand, runCommand, handleWait, M.bind_eq, M.pure_eq, mbind, mret,
      effCall, getPage, hne, hf, truthyStr, truthyNum]
  · intro s t hs ht ws
    simp [executeCommand, runCommand, handleWait, M.bind_eq, M.pure_eq, mbind, mret,
      effCall, getPage, hne, hf, truthyStr, truthyNum, hs, ht]

/-- C10 witness: concrete wait commands on the fixture state. -/
theorem C10_witness :
    executeCommand (.wait "w10" none none none) sampleBM
      = (successResponse "w10" .waited, sampleBM, [.waitForLoadState]) ∧
    executeCommand (.wait "w10" (some "#x") (some 2000) none) sampleBM
      = (successResponse "w10" .waited, sampleBM,
         [.waitForSelector "#x" .visible (some 2000)]) := by
  have h := C10_wait_branches "w10" sampleBM (fun e => rfl) (by decide)
  exact ⟨h.2.1, h.2.2 "#x" 2000 (by decide) (by decide) none⟩
